import Mathlib

/-!
# ArduCopter guided-stabilize flight mode

A shallow embedding of `ArduCopter/control_guided_stabilize.cpp`:

* `F32` models the C++ `float` (IEEE-754 binary32) values and the three
  arithmetic operations the file uses (int-to-float conversion, `/`, `*`),
  with round-to-nearest-even;
* `Statics` holds the four file-scope variables;
* `Copter V` is the part of the vehicle the mode reads (safety flags, sticks,
  pilot-input conversions), over an arbitrary vehicle context `V`;
* `guided_stabilize_run` returns the statics after the tick together with the
  list of calls the tick makes, in source order.
-/

namespace GuidedStabilize

/-! ## Single-precision floats -/

/-- A binary32 datum: NaN, a signed infinity, or the finite number
`(-1)^neg * m * 2^e`. -/
inductive F32 where
  | nan : F32
  | inf (neg : Bool) : F32
  | finite (neg : Bool) (m : Nat) (e : Int) : F32
deriving DecidableEq

namespace F32

/-- Number of binary digits of `n`, computed with `fuel` halvings. -/
def bitsAux : Nat → Nat → Nat
  | 0, _ => 0
  | fuel + 1, n => if n = 0 then 0 else bitsAux fuel (n / 2) + 1

/-- Number of binary digits of `n` (`0` for `0`). -/
def bits (n : Nat) : Nat := bitsAux n n

/-- Round the exact value `(-1)^neg * P * 2^E` to binary32: 24 significant
bits, least exponent `-149` (gradual underflow), round to nearest with ties to
even, overflow to infinity. -/
def round (neg : Bool) (P : Nat) (E : Int) : F32 :=
  if P = 0 then finite neg 0 (-149) else
  let e0 : Int := max (E + ((bits P : Int) - 24)) (-149)
  let k : Int := e0 - E
  let m : Nat :=
    if k ≤ 0 then P * 2 ^ (-k).toNat
    else
      let d := 2 ^ k.toNat
      let q := P / d
      let r := P % d
      if d < 2 * r ∨ (2 * r = d ∧ q % 2 = 1) then q + 1 else q
  if m = 2 ^ 24 then (if 104 < e0 + 1 then inf neg else finite neg (2 ^ 23) (e0 + 1))
  else if 104 < e0 then inf neg else finite neg m e0

/-- Conversion of a C++ `int` to `float`. -/
def ofInt (i : Int) : F32 := round (decide (i < 0)) i.natAbs 0

/-- The C++ `float` product. -/
def mul : F32 → F32 → F32
  | nan, _ => nan
  | _, nan => nan
  | inf s, inf t => inf (xor s t)
  | inf s, finite t n _ => if n = 0 then nan else inf (xor s t)
  | finite s m _, inf t => if m = 0 then nan else inf (xor s t)
  | finite s m e, finite t n f => round (xor s t) (m * n) (e + f)

/-- The C++ `float` quotient.  The quotient of the significands is taken to
at least 27 bits and a sticky bit records a non-zero remainder, so that the
final rounding is the rounding of the exact quotient. -/
def div : F32 → F32 → F32
  | nan, _ => nan
  | _, nan => nan
  | inf _, inf _ => nan
  | inf s, finite t _ _ => inf (xor s t)
  | finite s _ _, inf t => finite (xor s t) 0 (-149)
  | finite s m e, finite t n f =>
    if n = 0 then (if m = 0 then nan else inf (xor s t))
    else
      let K := bits n + 26
      let N := m * 2 ^ K
      let sticky := if N % n = 0 then 0 else 1
      round (xor s t) (2 * (N / n) + sticky) (e - f - K - 1)

/-- The rational value of a finite datum. -/
def toRat : F32 → Option ℚ
  | finite s m e => some ((if s then -1 else 1) * (m : ℚ) * (2 : ℚ) ^ e)
  | _ => none

end F32

/-- Modelled from the spec: `M_PI_F`, the single-precision constant for π that
the conversion `18000/M_PI_F` uses; its definition is outside this file.  The
binary32 number nearest to π is `13176795 * 2^-22`. -/
def M_PI_F : F32 := F32.finite false 13176795 (-22)

/-! ## The file-scope state -/

/-- Value of the macro `GUIDED_STABILIZE_TARGET_MASK_ATTITUDE_IGNORE`, `(1<<0)`,
a C++ `int`. -/
def GUIDED_STABILIZE_TARGET_MASK_ATTITUDE_IGNORE : Int := Int.ofNat (1 <<< 0)

/-- Value of the macro `GUIDED_STABILIZE_TARGET_MASK_YAW_RATE_IGNORE`, `(1<<1)`,
a C++ `int`. -/
def GUIDED_STABILIZE_TARGET_MASK_YAW_RATE_IGNORE : Int := Int.ofNat (1 <<< 1)

/-- Conversion of an `int` to `uint16_t`: reduction modulo `2^16`. -/
def toUint16 (x : Int) : Nat := (x % 65536).toNat

/-- The four `static` variables of the file.  The mask is a `uint16_t`, held
as a natural number; every assignment to it goes through `toUint16`. -/
structure Statics where
  guided_stabilize_target_mask : Nat
  guided_stabilize_target_roll : F32
  guided_stabilize_target_pitch : F32
  guided_stabilize_target_yaw_rate : F32
deriving DecidableEq

/-- Zero-initialised statics, as the C++ runtime leaves them before any call. -/
def Statics.zero : Statics :=
  { guided_stabilize_target_mask := 0
    guided_stabilize_target_roll := F32.finite false 0 (-149)
    guided_stabilize_target_pitch := F32.finite false 0 (-149)
    guided_stabilize_target_yaw_rate := F32.finite false 0 (-149) }

/-- The C++ test `if (mask & BIT)`: the mask is promoted to `int`, and-ed with
the macro value, and compared with zero. -/
def maskTest (mask : Nat) (flag : Int) : Bool :=
  decide (Int.land (mask : Int) flag ≠ 0)

/-! ## The vehicle seen from this file -/

/-- A call the mode makes, with the values of its argument expressions (integer
arguments are recorded as written, before any conversion to the parameter type
of the callee, which is declared outside this file). -/
inductive Call where
  | set_alt_target (alt : Int)
  | motors_armed
  | set_throttle_out_unstabilized (throttle_in : Int) (reset_attitude_control : Bool)
      (filt_cutoff : F32)
  | slow_start (flag : Bool)
  | update_simple_mode
  | get_pilot_desired_lean_angles (roll_in pitch_in : Int)
  | get_pilot_desired_yaw_rate (stick_angle : Int)
  | get_pilot_desired_throttle (throttle_control : Int)
  | get_smoothing_gain
  | angle_ef_roll_pitch_rate_ef_yaw_smooth (roll pitch yaw_rate smoothing_gain : F32)
  | set_throttle_out (throttle_in : Int) (apply_angle_boost : Bool) (filt_cutoff : F32)
deriving DecidableEq

/-- What `guided_stabilize_run` reads from the rest of the vehicle, over an
arbitrary vehicle context `V`.  The flags, the sticks (`int16_t`) and the
throttle filter are read from the context; `update_simple_mode` rewrites the
context (it transforms the pilot inputs); the pilot-input conversions are
functions of the context and of their arguments.  The bodies of these
functions are outside this file, so they are parameters. -/
structure Copter (V : Type) where
  motors_armed : V → Bool
  ap_throttle_zero : V → Bool
  ap_land_complete : V → Bool
  g_throttle_filt : V → F32
  g_rc_1_control_in : V → Int
  g_rc_2_control_in : V → Int
  g_rc_4_control_in : V → Int
  channel_throttle_control_in : V → Int
  update_simple_mode : V → V
  get_pilot_desired_lean_angles : V → Int → Int → F32 × F32
  get_pilot_desired_yaw_rate : V → Int → F32
  get_pilot_desired_throttle : V → Int → Int
  get_smoothing_gain : V → F32

/-- Outcome of one call of a mode function: the statics and the vehicle
context it leaves, and the calls it made, first call first. -/
structure Outcome (V : Type) where
  statics : Statics
  vehicle : V
  calls : List Call

/-! ## The mode functions -/

/-- The function `Copter::guided_stabilize_init`: returns the flag it reports together with
the statics it leaves and the calls it makes. -/
def guided_stabilize_init (_s : Statics) (_ignore_checks : Bool) :
    Bool × Statics × List Call :=
  (true,
   { guided_stabilize_target_mask :=
       toUint16 (Int.lor GUIDED_STABILIZE_TARGET_MASK_ATTITUDE_IGNORE
         GUIDED_STABILIZE_TARGET_MASK_YAW_RATE_IGNORE)
     guided_stabilize_target_roll := F32.ofInt 0
     guided_stabilize_target_pitch := F32.ofInt 0
     guided_stabilize_target_yaw_rate := F32.ofInt 0 },
   [Call.set_alt_target 0])

/-- The function `Copter::guided_stabilize_run`: one control tick. -/
def guided_stabilize_run {V : Type} (C : Copter V) (s : Statics) (v : V) : Outcome V :=
  if !C.motors_armed v || C.ap_throttle_zero v then
    { statics := s
      vehicle := v
      calls :=
        [Call.motors_armed,
         Call.set_throttle_out_unstabilized 0 true (C.g_throttle_filt v)]
        ++ (if C.ap_land_complete v then [Call.slow_start true] else []) }
  else
    let v1 := C.update_simple_mode v
    let attitude : (F32 × F32) × List Call :=
      if maskTest s.guided_stabilize_target_mask
          GUIDED_STABILIZE_TARGET_MASK_ATTITUDE_IGNORE then
        (C.get_pilot_desired_lean_angles v1 (C.g_rc_1_control_in v1) (C.g_rc_2_control_in v1),
         [Call.get_pilot_desired_lean_angles (C.g_rc_1_control_in v1) (C.g_rc_2_control_in v1)])
      else
        ((s.guided_stabilize_target_roll, s.guided_stabilize_target_pitch), [])
    let target_roll := attitude.1.1
    let target_pitch := attitude.1.2
    let yaw : F32 × List Call :=
      if maskTest s.guided_stabilize_target_mask
          GUIDED_STABILIZE_TARGET_MASK_YAW_RATE_IGNORE then
        (C.get_pilot_desired_yaw_rate v1 (C.g_rc_4_control_in v1),
         [Call.get_pilot_desired_yaw_rate (C.g_rc_4_control_in v1)])
      else
        (s.guided_stabilize_target_yaw_rate, [])
    let target_yaw_rate := yaw.1
    let pilot_throttle_scaled :=
      C.get_pilot_desired_throttle v1 (C.channel_throttle_control_in v1)
    { statics := s
      vehicle := v1
      calls :=
        [Call.motors_armed, Call.update_simple_mode]
        ++ attitude.2
        ++ yaw.2
        ++ [Call.get_pilot_desired_throttle (C.channel_throttle_control_in v1),
            Call.get_smoothing_gain,
            Call.angle_ef_roll_pitch_rate_ef_yaw_smooth target_roll target_pitch
              target_yaw_rate (C.get_smoothing_gain v1),
            Call.set_throttle_out pilot_throttle_scaled true (C.g_throttle_filt v1)] }

/-- The function `Copter::guided_stabilize_set_target_attitude`. -/
def guided_stabilize_set_target_attitude (s : Statics) (roll pitch : F32) : Statics :=
  { s with
    guided_stabilize_target_roll := F32.mul (F32.div (F32.ofInt 18000) M_PI_F) roll
    guided_stabilize_target_pitch := F32.mul (F32.div (F32.ofInt 18000) M_PI_F) pitch
    guided_stabilize_target_mask :=
      toUint16 (Int.land (s.guided_stabilize_target_mask : Int)
        (Int.lnot GUIDED_STABILIZE_TARGET_MASK_ATTITUDE_IGNORE)) }

/-- The function `Copter::guided_stabilize_unset_target_attitude`. -/
def guided_stabilize_unset_target_attitude (s : Statics) : Statics :=
  { s with
    guided_stabilize_target_mask :=
      toUint16 (Int.lor (s.guided_stabilize_target_mask : Int)
        GUIDED_STABILIZE_TARGET_MASK_ATTITUDE_IGNORE) }

/-- The function `Copter::guided_stabilize_set_target_yaw_rate`. -/
def guided_stabilize_set_target_yaw_rate (s : Statics) (yaw_rate : F32) : Statics :=
  { s with
    guided_stabilize_target_yaw_rate := F32.mul (F32.div (F32.ofInt 18000) M_PI_F) yaw_rate
    guided_stabilize_target_mask :=
      toUint16 (Int.land (s.guided_stabilize_target_mask : Int)
        (Int.lnot GUIDED_STABILIZE_TARGET_MASK_YAW_RATE_IGNORE)) }

/-- The function `Copter::guided_stabilize_unset_target_yaw_rate`. -/
def guided_stabilize_unset_target_yaw_rate (s : Statics) : Statics :=
  { s with
    guided_stabilize_target_mask :=
      toUint16 (Int.lor (s.guided_stabilize_target_mask : Int)
        GUIDED_STABILIZE_TARGET_MASK_YAW_RATE_IGNORE) }

/-! ## Observations on a tick -/

/-- Arguments of an attitude-controller call, `none` for any other call. -/
def Call.attitudeArgs : Call → Option (F32 × F32 × F32 × F32)
  | Call.angle_ef_roll_pitch_rate_ef_yaw_smooth r p y g => some (r, p, y, g)
  | _ => none

/-- Arguments of a stabilized `set_throttle_out` call, `none` for any other call. -/
def Call.throttleOutArgs : Call → Option (Int × Bool × F32)
  | Call.set_throttle_out t b f => some (t, b, f)
  | _ => none

/-- The attitude-controller calls of a tick, in order. -/
def attitudeCalls (calls : List Call) : List (F32 × F32 × F32 × F32) :=
  calls.filterMap Call.attitudeArgs

/-- The stabilized throttle commands of a tick, in order. -/
def throttleOutCalls (calls : List Call) : List (Int × Bool × F32) :=
  calls.filterMap Call.throttleOutArgs

/-- The statics after a run of ticks, one per vehicle context of the list. -/
def runTicks {V : Type} (C : Copter V) (s : Statics) : List V → Statics
  | [] => s
  | v :: vs => runTicks C (guided_stabilize_run C s v).statics vs

/-! ## A sample vehicle for evaluating the model -/

/-- A vehicle context with just the values the mode reads. -/
structure SampleVehicle where
  armed : Bool
  throttle_zero : Bool
  land_complete : Bool
  throttle_filt : F32
  rc_1 : Int
  rc_2 : Int
  rc_4 : Int
  rc_3 : Int

/-- Stand-in pilot-input conversions on `SampleVehicle`, used only to evaluate
the model on examples: simple mode swaps nothing, the lean angles and the yaw
rate are the stick values as floats, the throttle is the stick value. -/
def sampleCopter : Copter SampleVehicle :=
  { motors_armed := fun v => v.armed
    ap_throttle_zero := fun v => v.throttle_zero
    ap_land_complete := fun v => v.land_complete
    g_throttle_filt := fun v => v.throttle_filt
    g_rc_1_control_in := fun v => v.rc_1
    g_rc_2_control_in := fun v => v.rc_2
    g_rc_4_control_in := fun v => v.rc_4
    channel_throttle_control_in := fun v => v.rc_3
    update_simple_mode := fun v => v
    get_pilot_desired_lean_angles := fun _ r p => (F32.ofInt r, F32.ofInt p)
    get_pilot_desired_yaw_rate := fun _ y => F32.ofInt y
    get_pilot_desired_throttle := fun _ t => t
    get_smoothing_gain := fun _ => F32.ofInt 12 }

/-- An armed, airborne sample vehicle with roll stick 100 and pitch stick -50. -/
def flying : SampleVehicle :=
  { armed := true, throttle_zero := false, land_complete := false
    throttle_filt := F32.ofInt 0, rc_1 := 100, rc_2 := -50, rc_4 := 30, rc_3 := 500 }

/-- A disarmed, landed sample vehicle. -/
def landed : SampleVehicle :=
  { armed := false, throttle_zero := true, land_complete := true
    throttle_filt := F32.ofInt 0, rc_1 := 0, rc_2 := 0, rc_4 := 0, rc_3 := 0 }

/-- The binary32 number nearest to `0.1`. -/
def f32_0_1 : F32 := F32.finite false 13421773 (-27)

/-- The binary32 number `+0.0`. -/
def f32_0 : F32 := F32.finite false 0 (-149)

/-! ## Commands and operations -/

/-- The four set/unset commands of the mode, with their arguments. -/
inductive Command where
  | set_target_attitude (roll pitch : F32)
  | unset_target_attitude
  | set_target_yaw_rate (yaw_rate : F32)
  | unset_target_yaw_rate

/-- The statics after one command. -/
def Command.apply (s : Statics) : Command → Statics
  | Command.set_target_attitude roll pitch => guided_stabilize_set_target_attitude s roll pitch
  | Command.unset_target_attitude => guided_stabilize_unset_target_attitude s
  | Command.set_target_yaw_rate yaw_rate => guided_stabilize_set_target_yaw_rate s yaw_rate
  | Command.unset_target_yaw_rate => guided_stabilize_unset_target_yaw_rate s

/-- The statics after a finite sequence of commands, first command first. -/
def applyCommands (s : Statics) : List Command → Statics
  | [] => s
  | c :: cs => applyCommands (c.apply s) cs

/-- Any one of the six functions of the file: `guided_stabilize_init`,
`guided_stabilize_run` on some vehicle context, or one of the four commands. -/
inductive Operation (V : Type) where
  | init (ignore_checks : Bool)
  | run (v : V)
  | command (c : Command)

/-- The statics after one operation. -/
def Operation.apply {V : Type} (C : Copter V) (s : Statics) : Operation V → Statics
  | Operation.init ignore_checks => (guided_stabilize_init s ignore_checks).2.1
  | Operation.run v => (guided_stabilize_run C s v).statics
  | Operation.command c => c.apply s

/-! ## The two-switch model of the specification -/

namespace Spec

/-- Where a target comes from: the pilot sticks or an external command. -/
inductive Source where
  | Pilot
  | External
deriving DecidableEq

/-- The state of the Mode Controller as the specification describes it: two
independent switches and the stored external targets, in the internal unit. -/
structure ModeController where
  attitudeSource : Source
  yawRateSource : Source
  externalRoll : F32
  externalPitch : F32
  externalYawRate : F32
deriving DecidableEq

/-- Conversion of radians to the internal unit, `×18000/π`, in single precision. -/
def toInternalUnit (x : F32) : F32 := F32.mul (F32.div (F32.ofInt 18000) M_PI_F) x

/-- Specification of `init`: both switches to `Pilot`, both external targets and
the altitude report target to zero, success returned whatever `ignoreChecks`. -/
def init (_m : ModeController) (_ignoreChecks : Bool) : Bool × ModeController × List Call :=
  (true,
   { attitudeSource := Source.Pilot
     yawRateSource := Source.Pilot
     externalRoll := F32.ofInt 0
     externalPitch := F32.ofInt 0
     externalYawRate := F32.ofInt 0 },
   [Call.set_alt_target 0])

/-- Specification of `setTargetAttitude`: convert both values, overwrite the
external attitude target, switch the attitude source to `External`. -/
def setTargetAttitude (m : ModeController) (roll pitch : F32) : ModeController :=
  { m with
    externalRoll := toInternalUnit roll
    externalPitch := toInternalUnit pitch
    attitudeSource := Source.External }

/-- Specification of `unsetTargetAttitude`: switch the attitude source to
`Pilot`, keep the stored value. -/
def unsetTargetAttitude (m : ModeController) : ModeController :=
  { m with attitudeSource := Source.Pilot }

/-- Specification of `setTargetYawRate`: convert, overwrite the external yaw-rate
target, switch the yaw-rate source to `External`. -/
def setTargetYawRate (m : ModeController) (rate : F32) : ModeController :=
  { m with
    externalYawRate := toInternalUnit rate
    yawRateSource := Source.External }

/-- Specification of `unsetTargetYawRate`: switch the yaw-rate source to `Pilot`,
keep the stored value. -/
def unsetTargetYawRate (m : ModeController) : ModeController :=
  { m with yawRateSource := Source.Pilot }

/-- Specification of `run`, steps 1 to 7 of its algorithm, over the two
switches: safety gate; simple-mode transform; attitude target by
`attitudeSource`; yaw-rate target by `yawRateSource`; pilot throttle;
attitude-controller call; throttle command.  The collaborator calls of each
step are written as the source makes them (the gate asks `motors.armed()`, the
smoothing gain is asked of `get_smoothing_gain()`), so that the outcome can be
compared with that of `guided_stabilize_run`; the state is never written. -/
def run {V : Type} (C : Copter V) (m : ModeController) (v : V) :
    ModeController × V × List Call :=
  if !C.motors_armed v || C.ap_throttle_zero v then
    (m, v,
     [Call.motors_armed,
      Call.set_throttle_out_unstabilized 0 true (C.g_throttle_filt v)]
     ++ (if C.ap_land_complete v then [Call.slow_start true] else []))
  else
    let v1 := C.update_simple_mode v
    let attitude : (F32 × F32) × List Call :=
      match m.attitudeSource with
      | Source.Pilot =>
        (C.get_pilot_desired_lean_angles v1 (C.g_rc_1_control_in v1) (C.g_rc_2_control_in v1),
         [Call.get_pilot_desired_lean_angles (C.g_rc_1_control_in v1) (C.g_rc_2_control_in v1)])
      | Source.External => ((m.externalRoll, m.externalPitch), [])
    let yaw : F32 × List Call :=
      match m.yawRateSource with
      | Source.Pilot =>
        (C.get_pilot_desired_yaw_rate v1 (C.g_rc_4_control_in v1),
         [Call.get_pilot_desired_yaw_rate (C.g_rc_4_control_in v1)])
      | Source.External => (m.externalYawRate, [])
    (m, v1,
     [Call.motors_armed, Call.update_simple_mode]
     ++ attitude.2
     ++ yaw.2
     ++ [Call.get_pilot_desired_throttle (C.channel_throttle_control_in v1),
         Call.get_smoothing_gain,
         Call.angle_ef_roll_pitch_rate_ef_yaw_smooth attitude.1.1 attitude.1.2 yaw.1
           (C.get_smoothing_gain v1),
         Call.set_throttle_out
           (C.get_pilot_desired_throttle v1 (C.channel_throttle_control_in v1)) true
           (C.g_throttle_filt v1)])

end Spec

/-- The abstraction from the statics to the two-switch model: a source is
`Pilot` exactly when its IGNORE bit (bit 0 for the attitude, bit 1 for the yaw
rate) is set in the mask; the stored targets are carried over. -/
def abstraction (s : Statics) : Spec.ModeController :=
  { attitudeSource :=
      if s.guided_stabilize_target_mask.testBit 0 then Spec.Source.Pilot
      else Spec.Source.External
    yawRateSource :=
      if s.guided_stabilize_target_mask.testBit 1 then Spec.Source.Pilot
      else Spec.Source.External
    externalRoll := s.guided_stabilize_target_roll
    externalPitch := s.guided_stabilize_target_pitch
    externalYawRate := s.guided_stabilize_target_yaw_rate }

/-! ## The steps of a tick -/

/-- Whether a call is a step of the sequence of a tick.  Every call is, except
`motors.armed()`, which is the condition of the gate, and `get_smoothing_gain()`,
which is the evaluation of the last argument of the attitude-controller call. -/
def Call.isStep : Call → Bool
  | Call.motors_armed => false
  | Call.get_smoothing_gain => false
  | _ => true

/-- The steps of a tick, in order. -/
def tickSteps (calls : List Call) : List Call :=
  calls.filter Call.isStep

/-! ## The setters, one assignment at a time -/

/-- Line 102 of the source: the assignment to `guided_stabilize_target_roll`. -/
def set_target_attitude_line_102 (s : Statics) (roll : F32) : Statics :=
  { s with
    guided_stabilize_target_roll := F32.mul (F32.div (F32.ofInt 18000) M_PI_F) roll }

/-- Line 103 of the source: the assignment to `guided_stabilize_target_pitch`. -/
def set_target_attitude_line_103 (s : Statics) (pitch : F32) : Statics :=
  { s with
    guided_stabilize_target_pitch := F32.mul (F32.div (F32.ofInt 18000) M_PI_F) pitch }

/-- Line 104 of the source: `mask &= ~GUIDED_STABILIZE_TARGET_MASK_ATTITUDE_IGNORE`. -/
def set_target_attitude_line_104 (s : Statics) : Statics :=
  { s with
    guided_stabilize_target_mask :=
      toUint16 (Int.land (s.guided_stabilize_target_mask : Int)
        (Int.lnot GUIDED_STABILIZE_TARGET_MASK_ATTITUDE_IGNORE)) }

/-- Line 115 of the source: the assignment to `guided_stabilize_target_yaw_rate`. -/
def set_target_yaw_rate_line_115 (s : Statics) (yaw_rate : F32) : Statics :=
  { s with
    guided_stabilize_target_yaw_rate := F32.mul (F32.div (F32.ofInt 18000) M_PI_F) yaw_rate }

/-- Line 116 of the source: `mask &= ~GUIDED_STABILIZE_TARGET_MASK_YAW_RATE_IGNORE`. -/
def set_target_yaw_rate_line_116 (s : Statics) : Statics :=
  { s with
    guided_stabilize_target_mask :=
      toUint16 (Int.land (s.guided_stabilize_target_mask : Int)
        (Int.lnot GUIDED_STABILIZE_TARGET_MASK_YAW_RATE_IGNORE)) }

/-- The statics after the first `k` assignments of a call of
`guided_stabilize_set_target_attitude`, in source order (all three for `k ≥ 3`);
this is what a tick finds when it runs at that point of the call. -/
def set_target_attitude_after (k : Nat) (s : Statics) (roll pitch : F32) : Statics :=
  match k with
  | 0 => s
  | 1 => set_target_attitude_line_102 s roll
  | 2 => set_target_attitude_line_103 (set_target_attitude_line_102 s roll) pitch
  | _ => set_target_attitude_line_104
          (set_target_attitude_line_103 (set_target_attitude_line_102 s roll) pitch)

/-- The statics after the first `k` assignments of a call of
`guided_stabilize_set_target_yaw_rate`, in source order (both for `k ≥ 2`). -/
def set_target_yaw_rate_after (k : Nat) (s : Statics) (yaw_rate : F32) : Statics :=
  match k with
  | 0 => s
  | 1 => set_target_yaw_rate_line_115 s yaw_rate
  | _ => set_target_yaw_rate_line_116 (set_target_yaw_rate_line_115 s yaw_rate)

/-! ## Rounding: the error of a single-precision operation -/

namespace F32

/-- Zero has no binary digits, whatever the fuel. -/
theorem bitsAux_zero (f : Nat) : bitsAux f 0 = 0 := by
  cases f <;> simp [bitsAux]

/-- With enough fuel, `bitsAux` brackets `n` between consecutive powers of two. -/
theorem bitsAux_spec : ∀ (f n : Nat), n ≤ f →
    n < 2 ^ bitsAux f n ∧ (n ≠ 0 → 2 ^ bitsAux f n ≤ 2 * n)
  | 0, n, h => by
    have h0 : n = 0 := by omega
    subst h0
    simp [bitsAux]
  | f + 1, n, h => by
    by_cases hn : n = 0
    · subst hn
      simp [bitsAux]
    · have ih := bitsAux_spec f (n / 2) (by omega)
      simp only [bitsAux, hn, if_false, pow_succ]
      by_cases h2 : n / 2 = 0
      · have h1 : n = 1 := by omega
        subst h1
        simp [bitsAux_zero]
      · obtain ⟨h1, h3⟩ := ih
        have h4 := h3 h2
        constructor
        · omega
        · intro _
          omega

/-- A non-zero `P` has exactly `bits P` binary digits. -/
theorem bits_spec (P : Nat) (hP : P ≠ 0) : P < 2 ^ bits P ∧ 2 ^ bits P ≤ 2 * P :=
  ⟨(bitsAux_spec P P le_rfl).1, (bitsAux_spec P P le_rfl).2 hP⟩


/-- In the normal range (no underflow, no overflow) `round` returns a finite
datum whose value differs from the exact `P * 2^E` by at most `2^-24` of it. -/
theorem round_normal (neg : Bool) (P : Nat) (E : Int) (hP : P ≠ 0)
    (hlo : -149 ≤ E + ((bits P : Int) - 24)) (hhi : E + ((bits P : Int) - 24) < 104) :
    ∃ (m : Nat) (e : Int), round neg P E = finite neg m e
      ∧ |(m : ℚ) * 2 ^ e - (P : ℚ) * 2 ^ E| * 2 ^ 24 ≤ (P : ℚ) * 2 ^ E := by
  obtain ⟨hb1, hb2⟩ := bits_spec P hP
  have he0 : max (E + ((bits P : Int) - 24)) (-149) = E + ((bits P : Int) - 24) :=
    max_eq_left hlo
  have hk : E + ((bits P : Int) - 24) - E = (bits P : Int) - 24 := by ring
  have h2E : (0 : ℚ) < 2 ^ E := by positivity
  have hPE : (0 : ℚ) ≤ (P : ℚ) * 2 ^ E := by positivity
  unfold round
  simp only [hP, if_false, he0, hk]
  by_cases hle : (bits P : Int) - 24 ≤ 0
  · simp only [hle, if_true]
    have hneg : (-((bits P : Int) - 24)).toNat = 24 - bits P := by omega
    rw [hneg]
    have hm : P * 2 ^ (24 - bits P) < 2 ^ 24 := by
      calc P * 2 ^ (24 - bits P) < 2 ^ bits P * 2 ^ (24 - bits P) :=
            Nat.mul_lt_mul_of_pos_right hb1 (by positivity)
        _ = 2 ^ 24 := by
            rw [← pow_add]
            congr 1
            omega
    rw [if_neg (Nat.ne_of_lt hm), if_neg (by omega)]
    refine ⟨_, _, rfl, ?_⟩
    have hexp : E + ((bits P : Int) - 24) = E + -((24 - bits P : Nat) : Int) := by omega
    have hval : ((P * 2 ^ (24 - bits P) : Nat) : ℚ) * 2 ^ (E + ((bits P : Int) - 24))
        = (P : ℚ) * 2 ^ E := by
      rw [hexp, zpow_add₀ (by norm_num : (2 : ℚ) ≠ 0), zpow_neg, zpow_natCast]
      push_cast
      field_simp
      ring
    rw [hval, sub_self, abs_zero, zero_mul]
    exact hPE
  · simp only [hle, if_false]
    have hkn : ((bits P : Int) - 24).toNat = bits P - 24 := by omega
    rw [hkn]
    have hb : 24 < bits P := by omega
    have hpow : 2 ^ bits P = 2 ^ 24 * 2 ^ (bits P - 24) := by
      rw [← pow_add]
      congr 1
      omega
    generalize hd : 2 ^ (bits P - 24) = d at *
    have hdpos : 0 < d := by rw [← hd]; positivity
    have hdiv := Nat.div_add_mod P d
    have hmod := Nat.mod_lt P hdpos
    generalize hq : P / d = q at *
    generalize hr : P % d = r at *
    generalize hm : (if d < 2 * r ∨ 2 * r = d ∧ q % 2 = 1 then q + 1 else q) = m
    have hmb : 2 * (m * d) ≤ 2 * P + d ∧ 2 * P ≤ 2 * (m * d) + d := by
      rw [← hm]
      split
      · rename_i hc
        have : (q + 1) * d = d * q + d := by ring
        rw [this]
        constructor <;> omega
      · rename_i hc
        have : q * d = d * q := by ring
        rw [this]
        constructor <;> omega
    have hexp : (2 : ℚ) ^ (E + ((bits P : Int) - 24)) = 2 ^ E * (d : ℚ) := by
      have : ((bits P : Int) - 24) = ((bits P - 24 : Nat) : Int) := by omega
      rw [zpow_add₀ (by norm_num : (2 : ℚ) ≠ 0), this, zpow_natCast, ← hd]
      push_cast
      rfl
    have hval : |(m : ℚ) * (2 ^ E * (d : ℚ)) - (P : ℚ) * 2 ^ E| * 2 ^ 24 ≤ (P : ℚ) * 2 ^ E := by
      have e1 : (m : ℚ) * (2 ^ E * (d : ℚ)) - (P : ℚ) * 2 ^ E
          = ((m : ℚ) * d - P) * 2 ^ E := by ring
      rw [e1, abs_mul, abs_of_pos h2E]
      have h1 : (2 : ℚ) * ((m : ℚ) * d) ≤ 2 * P + d := by exact_mod_cast hmb.1
      have h2 : (2 : ℚ) * P ≤ 2 * ((m : ℚ) * d) + d := by exact_mod_cast hmb.2
      have h3 : (2 : ℚ) ^ 24 * d ≤ 2 * P := by
        have : 2 ^ 24 * d ≤ 2 * P := by omega
        exact_mod_cast this
      have h4 : |(m : ℚ) * d - P| ≤ d / 2 := by
        rw [abs_le]
        constructor <;> linarith
      have h5 : |(m : ℚ) * d - P| * 2 ^ 24 ≤ (P : ℚ) := by
        calc |(m : ℚ) * d - P| * 2 ^ 24 ≤ (d : ℚ) / 2 * 2 ^ 24 :=
              mul_le_mul_of_nonneg_right h4 (by positivity)
          _ ≤ (P : ℚ) := by linarith
      calc |(m : ℚ) * d - P| * (2 : ℚ) ^ E * 2 ^ 24
            = |(m : ℚ) * d - P| * 2 ^ 24 * (2 : ℚ) ^ E := by ring
        _ ≤ (P : ℚ) * (2 : ℚ) ^ E := mul_le_mul_of_nonneg_right h5 h2E.le
    by_cases hc : m = 2 ^ 24
    · rw [if_pos hc, if_neg (by omega)]
      refine ⟨_, _, rfl, ?_⟩
      have : ((2 ^ 23 : Nat) : ℚ) * 2 ^ (E + ((bits P : Int) - 24) + 1)
          = (m : ℚ) * (2 ^ E * (d : ℚ)) := by
        rw [zpow_add₀ (by norm_num : (2 : ℚ) ≠ 0), hexp, hc]
        push_cast
        ring
      rw [this]
      exact hval
    · rw [if_neg hc, if_neg (by omega)]
      refine ⟨_, _, rfl, ?_⟩
      rw [hexp]
      exact hval

end F32

/-- Accuracy of the radian to centi-degree conversion of the source: for a
normal single-precision `x` of magnitude below `2^114`, the single-precision
product `(18000/M_PI_F)*x` is a finite number within relative error `2^-23` of
the real number `x * 18000 / π`. -/
theorem centidegrees_accuracy (s : Bool) (m : Nat) (e : Int)
    (hm1 : 2 ^ 23 ≤ m) (hm2 : m < 2 ^ 24) (he1 : -149 ≤ e) (he2 : e ≤ 90) :
    ∃ x y : ℚ, F32.toRat (F32.finite s m e) = some x
      ∧ F32.toRat (F32.mul (F32.div (F32.ofInt 18000) M_PI_F) (F32.finite s m e)) = some y
      ∧ |(y : ℝ) - x * 18000 / Real.pi| ≤ |(x : ℝ) * 18000 / Real.pi| / 2 ^ 23 := by
  have hK : F32.div (F32.ofInt 18000) M_PI_F = F32.finite false 11734175 (-11) := by decide
  have hP : 11734175 * m ≠ 0 := by omega
  obtain ⟨hb1, hb2⟩ := F32.bits_spec _ hP
  have hb47 : 47 ≤ F32.bits (11734175 * m) := by
    by_contra h
    have h46 : F32.bits (11734175 * m) ≤ 46 := by omega
    have := Nat.pow_le_pow_right (by norm_num : 0 < 2) h46
    omega
  have hb48 : F32.bits (11734175 * m) ≤ 48 := by
    by_contra h
    have h49 : 49 ≤ F32.bits (11734175 * m) := by omega
    have := Nat.pow_le_pow_right (by norm_num : 0 < 2) h49
    omega
  obtain ⟨m', e', hround, herr⟩ :=
    F32.round_normal s (11734175 * m) (-11 + e) hP (by omega) (by omega)
  refine ⟨(if s then -1 else 1) * (m : ℚ) * 2 ^ e, (if s then -1 else 1) * (m' : ℚ) * 2 ^ e',
    rfl, ?_, ?_⟩
  · rw [hK]
    show F32.toRat (F32.round (xor false s) (11734175 * m) (-11 + e)) = _
    rw [Bool.false_xor, hround]
    rfl
  · have core : |(m' : ℝ) * 2 ^ e' - (m : ℝ) * 2 ^ e * 18000 / Real.pi|
        ≤ |(m : ℝ) * 2 ^ e * 18000 / Real.pi| / 2 ^ 23 := by
      have hpos : (0 : ℝ) < Real.pi := Real.pi_pos
      have hlo := Real.pi_gt_d20
      have hhi := Real.pi_lt_d20
      have hc_lo : (5729.57795 : ℝ) < 18000 / Real.pi := by
        rw [lt_div_iff₀ hpos]
        linarith
      have hc_hi : 18000 / Real.pi < (5729.577952 : ℝ) := by
        rw [div_lt_iff₀ hpos]
        linarith
      have hA : (0 : ℝ) ≤ (m : ℝ) * 2 ^ e := by positivity
      have herrR : |(m' : ℝ) * 2 ^ e' - ((11734175 * m : Nat) : ℝ) * 2 ^ (-11 + e)| * 2 ^ 24
          ≤ ((11734175 * m : Nat) : ℝ) * 2 ^ (-11 + e) := by
        have h := (Rat.cast_le (K := ℝ)).mpr herr
        push_cast at h
        push_cast
        exact h
      have hPE : ((11734175 * m : Nat) : ℝ) * 2 ^ (-11 + e)
          = 11734175 / 2048 * ((m : ℝ) * 2 ^ e) := by
        rw [zpow_add₀ (by norm_num : (2 : ℝ) ≠ 0)]
        push_cast
        norm_num
        ring
      rw [hPE] at herrR
      have hmul : (m : ℝ) * 2 ^ e * 18000 / Real.pi = (m : ℝ) * 2 ^ e * (18000 / Real.pi) := by
        ring
      rw [hmul]
      generalize (m : ℝ) * 2 ^ e = A at hA herrR ⊢
      generalize (m' : ℝ) * 2 ^ e' = Y at herrR ⊢
      have ht_lo : 5729.57795 * A ≤ A * (18000 / Real.pi) := by
        rw [mul_comm]
        exact mul_le_mul_of_nonneg_left hc_lo.le hA
      have ht_hi : A * (18000 / Real.pi) ≤ 5729.577952 * A := by
        rw [mul_comm _ A]
        exact mul_le_mul_of_nonneg_left hc_hi.le hA
      generalize A * (18000 / Real.pi) = t at ht_lo ht_hi ⊢
      have hYb : |Y - 11734175 / 2048 * A| ≤ 11734175 / 2048 * A / 2 ^ 24 := by
        rw [le_div_iff₀ (by positivity)]
        exact herrR
      rw [abs_le] at hYb
      have ht0 : 0 ≤ t := by linarith
      rw [abs_of_nonneg ht0, abs_le]
      constructor <;> linarith [hYb.1, hYb.2]
    cases s
    · simp only [Bool.false_eq_true, if_false]
      push_cast
      simp only [one_mul]
      exact core
    · simp only [if_true]
      push_cast
      have e1 : (-1 : ℝ) * (m' : ℝ) * 2 ^ e' - -1 * (m : ℝ) * 2 ^ e * 18000 / Real.pi
          = -((m' : ℝ) * 2 ^ e' - (m : ℝ) * 2 ^ e * 18000 / Real.pi) := by ring
      have e2 : (-1 : ℝ) * (m : ℝ) * 2 ^ e * 18000 / Real.pi
          = -((m : ℝ) * 2 ^ e * 18000 / Real.pi) := by ring
      rw [e1, e2, abs_neg, abs_neg]
      exact core

/-! ## Mask arithmetic -/

theorem maskTest_attitude (m : Nat) :
    maskTest m GUIDED_STABILIZE_TARGET_MASK_ATTITUDE_IGNORE = m.testBit 0 := by
  have h : Int.land (m : Int) GUIDED_STABILIZE_TARGET_MASK_ATTITUDE_IGNORE
      = ((m &&& 1 : Nat) : Int) := rfl
  unfold maskTest
  rw [h, Nat.and_one_is_mod, Nat.testBit_zero]
  rcases Nat.mod_two_eq_zero_or_one m with h0 | h1
  · simp [h0]
  · simp [h1]

theorem maskTest_yaw_rate (m : Nat) :
    maskTest m GUIDED_STABILIZE_TARGET_MASK_YAW_RATE_IGNORE = m.testBit 1 := by
  have h : Int.land (m : Int) GUIDED_STABILIZE_TARGET_MASK_YAW_RATE_IGNORE
      = ((m &&& 2 ^ 1 : Nat) : Int) := rfl
  unfold maskTest
  rw [h, Nat.and_two_pow]
  cases m.testBit 1 <;> simp

theorem testBit_clear_attitude (m i : Nat) :
    (toUint16 (Int.land (m : Int)
      (Int.lnot GUIDED_STABILIZE_TARGET_MASK_ATTITUDE_IGNORE))).testBit i
      = (decide (i < 16) && (m.testBit i && !decide (0 = i))) := by
  have h : Int.land (m : Int) (Int.lnot GUIDED_STABILIZE_TARGET_MASK_ATTITUDE_IGNORE)
      = ((m.ldiff (2 ^ 0) : Nat) : Int) := rfl
  have h2 : toUint16 ((m.ldiff (2 ^ 0) : Nat) : Int) = m.ldiff (2 ^ 0) % 2 ^ 16 := by
    unfold toUint16; omega
  rw [h, h2, Nat.testBit_mod_two_pow, Nat.testBit_ldiff, Nat.testBit_two_pow]

theorem testBit_clear_yaw_rate (m i : Nat) :
    (toUint16 (Int.land (m : Int)
      (Int.lnot GUIDED_STABILIZE_TARGET_MASK_YAW_RATE_IGNORE))).testBit i
      = (decide (i < 16) && (m.testBit i && !decide (1 = i))) := by
  have h : Int.land (m : Int) (Int.lnot GUIDED_STABILIZE_TARGET_MASK_YAW_RATE_IGNORE)
      = ((m.ldiff (2 ^ 1) : Nat) : Int) := rfl
  have h2 : toUint16 ((m.ldiff (2 ^ 1) : Nat) : Int) = m.ldiff (2 ^ 1) % 2 ^ 16 := by
    unfold toUint16; omega
  rw [h, h2, Nat.testBit_mod_two_pow, Nat.testBit_ldiff, Nat.testBit_two_pow]

theorem testBit_set_attitude (m i : Nat) :
    (toUint16 (Int.lor (m : Int) GUIDED_STABILIZE_TARGET_MASK_ATTITUDE_IGNORE)).testBit i
      = (decide (i < 16) && (m.testBit i || decide (0 = i))) := by
  have h : Int.lor (m : Int) GUIDED_STABILIZE_TARGET_MASK_ATTITUDE_IGNORE
      = ((m ||| 2 ^ 0 : Nat) : Int) := rfl
  have h2 : toUint16 ((m ||| 2 ^ 0 : Nat) : Int) = (m ||| 2 ^ 0) % 2 ^ 16 := by
    unfold toUint16; omega
  rw [h, h2, Nat.testBit_mod_two_pow, Nat.testBit_lor, Nat.testBit_two_pow]

theorem testBit_set_yaw_rate (m i : Nat) :
    (toUint16 (Int.lor (m : Int) GUIDED_STABILIZE_TARGET_MASK_YAW_RATE_IGNORE)).testBit i
      = (decide (i < 16) && (m.testBit i || decide (1 = i))) := by
  have h : Int.lor (m : Int) GUIDED_STABILIZE_TARGET_MASK_YAW_RATE_IGNORE
      = ((m ||| 2 ^ 1 : Nat) : Int) := rfl
  have h2 : toUint16 ((m ||| 2 ^ 1 : Nat) : Int) = (m ||| 2 ^ 1) % 2 ^ 16 := by
    unfold toUint16; omega
  rw [h, h2, Nat.testBit_mod_two_pow, Nat.testBit_lor, Nat.testBit_two_pow]


/-! ## Effect of the four commands on the two mask bits -/

theorem set_target_attitude_bit0 (s : Statics) (roll pitch : F32) :
    (guided_stabilize_set_target_attitude s roll pitch).guided_stabilize_target_mask.testBit 0
      = false := by
  have h : (guided_stabilize_set_target_attitude s roll pitch).guided_stabilize_target_mask
      = toUint16 (Int.land (s.guided_stabilize_target_mask : Int)
        (Int.lnot GUIDED_STABILIZE_TARGET_MASK_ATTITUDE_IGNORE)) := rfl
  rw [h, testBit_clear_attitude]; simp

theorem set_target_attitude_bit1 (s : Statics) (roll pitch : F32) :
    (guided_stabilize_set_target_attitude s roll pitch).guided_stabilize_target_mask.testBit 1
      = s.guided_stabilize_target_mask.testBit 1 := by
  have h : (guided_stabilize_set_target_attitude s roll pitch).guided_stabilize_target_mask
      = toUint16 (Int.land (s.guided_stabilize_target_mask : Int)
        (Int.lnot GUIDED_STABILIZE_TARGET_MASK_ATTITUDE_IGNORE)) := rfl
  rw [h, testBit_clear_attitude]; simp

theorem unset_target_attitude_bit0 (s : Statics) :
    (guided_stabilize_unset_target_attitude s).guided_stabilize_target_mask.testBit 0
      = true := by
  have h : (guided_stabilize_unset_target_attitude s).guided_stabilize_target_mask
      = toUint16 (Int.lor (s.guided_stabilize_target_mask : Int)
        GUIDED_STABILIZE_TARGET_MASK_ATTITUDE_IGNORE) := rfl
  rw [h, testBit_set_attitude]; simp

theorem unset_target_attitude_bit1 (s : Statics) :
    (guided_stabilize_unset_target_attitude s).guided_stabilize_target_mask.testBit 1
      = s.guided_stabilize_target_mask.testBit 1 := by
  have h : (guided_stabilize_unset_target_attitude s).guided_stabilize_target_mask
      = toUint16 (Int.lor (s.guided_stabilize_target_mask : Int)
        GUIDED_STABILIZE_TARGET_MASK_ATTITUDE_IGNORE) := rfl
  rw [h, testBit_set_attitude]; simp

theorem set_target_yaw_rate_bit1 (s : Statics) (yaw_rate : F32) :
    (guided_stabilize_set_target_yaw_rate s yaw_rate).guided_stabilize_target_mask.testBit 1
      = false := by
  have h : (guided_stabilize_set_target_yaw_rate s yaw_rate).guided_stabilize_target_mask
      = toUint16 (Int.land (s.guided_stabilize_target_mask : Int)
        (Int.lnot GUIDED_STABILIZE_TARGET_MASK_YAW_RATE_IGNORE)) := rfl
  rw [h, testBit_clear_yaw_rate]; simp

theorem set_target_yaw_rate_bit0 (s : Statics) (yaw_rate : F32) :
    (guided_stabilize_set_target_yaw_rate s yaw_rate).guided_stabilize_target_mask.testBit 0
      = s.guided_stabilize_target_mask.testBit 0 := by
  have h : (guided_stabilize_set_target_yaw_rate s yaw_rate).guided_stabilize_target_mask
      = toUint16 (Int.land (s.guided_stabilize_target_mask : Int)
        (Int.lnot GUIDED_STABILIZE_TARGET_MASK_YAW_RATE_IGNORE)) := rfl
  rw [h, testBit_clear_yaw_rate]; simp

theorem unset_target_yaw_rate_bit1 (s : Statics) :
    (guided_stabilize_unset_target_yaw_rate s).guided_stabilize_target_mask.testBit 1
      = true := by
  have h : (guided_stabilize_unset_target_yaw_rate s).guided_stabilize_target_mask
      = toUint16 (Int.lor (s.guided_stabilize_target_mask : Int)
        GUIDED_STABILIZE_TARGET_MASK_YAW_RATE_IGNORE) := rfl
  rw [h, testBit_set_yaw_rate]; simp

theorem unset_target_yaw_rate_bit0 (s : Statics) :
    (guided_stabilize_unset_target_yaw_rate s).guided_stabilize_target_mask.testBit 0
      = s.guided_stabilize_target_mask.testBit 0 := by
  have h : (guided_stabilize_unset_target_yaw_rate s).guided_stabilize_target_mask
      = toUint16 (Int.lor (s.guided_stabilize_target_mask : Int)
        GUIDED_STABILIZE_TARGET_MASK_YAW_RATE_IGNORE) := rfl
  rw [h, testBit_set_yaw_rate]; simp

/-! ## Shape of a tick -/

theorem run_gated {V : Type} (C : Copter V) (s : Statics) (v : V)
    (hgate : C.motors_armed v = false ∨ C.ap_throttle_zero v = true) :
    guided_stabilize_run C s v =
      { statics := s
        vehicle := v
        calls :=
          [Call.motors_armed,
           Call.set_throttle_out_unstabilized 0 true (C.g_throttle_filt v)]
          ++ (if C.ap_land_complete v then [Call.slow_start true] else []) } := by
  unfold guided_stabilize_run
  rcases hgate with h | h <;> simp [h]

theorem run_open_attitudeCalls {V : Type} (C : Copter V) (s : Statics) (v : V)
    (harmed : C.motors_armed v = true) (hthr : C.ap_throttle_zero v = false) :
    attitudeCalls (guided_stabilize_run C s v).calls =
      [((if maskTest s.guided_stabilize_target_mask
            GUIDED_STABILIZE_TARGET_MASK_ATTITUDE_IGNORE then
          C.get_pilot_desired_lean_angles (C.update_simple_mode v)
            (C.g_rc_1_control_in (C.update_simple_mode v))
            (C.g_rc_2_control_in (C.update_simple_mode v))
        else (s.guided_stabilize_target_roll, s.guided_stabilize_target_pitch)).1,
        (if maskTest s.guided_stabilize_target_mask
            GUIDED_STABILIZE_TARGET_MASK_ATTITUDE_IGNORE then
          C.get_pilot_desired_lean_angles (C.update_simple_mode v)
            (C.g_rc_1_control_in (C.update_simple_mode v))
            (C.g_rc_2_control_in (C.update_simple_mode v))
        else (s.guided_stabilize_target_roll, s.guided_stabilize_target_pitch)).2,
        (if maskTest s.guided_stabilize_target_mask
            GUIDED_STABILIZE_TARGET_MASK_YAW_RATE_IGNORE then
          C.get_pilot_desired_yaw_rate (C.update_simple_mode v)
            (C.g_rc_4_control_in (C.update_simple_mode v))
        else s.guided_stabilize_target_yaw_rate),
        C.get_smoothing_gain (C.update_simple_mode v))] := by
  unfold guided_stabilize_run attitudeCalls
  simp only [harmed, hthr]
  by_cases ha : maskTest s.guided_stabilize_target_mask
      GUIDED_STABILIZE_TARGET_MASK_ATTITUDE_IGNORE = true <;>
  by_cases hy : maskTest s.guided_stabilize_target_mask
      GUIDED_STABILIZE_TARGET_MASK_YAW_RATE_IGNORE = true <;>
  simp [ha, hy, Call.attitudeArgs]

theorem run_open_throttleOutCalls {V : Type} (C : Copter V) (s : Statics) (v : V)
    (harmed : C.motors_armed v = true) (hthr : C.ap_throttle_zero v = false) :
    throttleOutCalls (guided_stabilize_run C s v).calls =
      [(C.get_pilot_desired_throttle (C.update_simple_mode v)
          (C.channel_throttle_control_in (C.update_simple_mode v)),
        true, C.g_throttle_filt (C.update_simple_mode v))] := by
  unfold guided_stabilize_run throttleOutCalls
  simp only [harmed, hthr]
  by_cases ha : maskTest s.guided_stabilize_target_mask
      GUIDED_STABILIZE_TARGET_MASK_ATTITUDE_IGNORE = true <;>
  by_cases hy : maskTest s.guided_stabilize_target_mask
      GUIDED_STABILIZE_TARGET_MASK_YAW_RATE_IGNORE = true <;>
  simp [ha, hy, Call.throttleOutArgs]

theorem run_statics {V : Type} (C : Copter V) (s : Statics) (v : V) :
    (guided_stabilize_run C s v).statics = s := by
  unfold guided_stabilize_run
  split <;> rfl

theorem runTicks_statics {V : Type} (C : Copter V) (s : Statics) (vs : List V) :
    runTicks C s vs = s := by
  induction vs with
  | nil => rfl
  | cons v vs ih => simp only [runTicks, run_statics, ih]

theorem run_open_calls {V : Type} (C : Copter V) (s : Statics) (v : V)
    (harmed : C.motors_armed v = true) (hthr : C.ap_throttle_zero v = false) :
    (guided_stabilize_run C s v).calls =
      [Call.motors_armed, Call.update_simple_mode]
      ++ (if maskTest s.guided_stabilize_target_mask
            GUIDED_STABILIZE_TARGET_MASK_ATTITUDE_IGNORE then
          [Call.get_pilot_desired_lean_angles (C.g_rc_1_control_in (C.update_simple_mode v))
            (C.g_rc_2_control_in (C.update_simple_mode v))]
        else [])
      ++ (if maskTest s.guided_stabilize_target_mask
            GUIDED_STABILIZE_TARGET_MASK_YAW_RATE_IGNORE then
          [Call.get_pilot_desired_yaw_rate (C.g_rc_4_control_in (C.update_simple_mode v))]
        else [])
      ++ [Call.get_pilot_desired_throttle
            (C.channel_throttle_control_in (C.update_simple_mode v)),
          Call.get_smoothing_gain,
          Call.angle_ef_roll_pitch_rate_ef_yaw_smooth
            (if maskTest s.guided_stabilize_target_mask
                GUIDED_STABILIZE_TARGET_MASK_ATTITUDE_IGNORE then
              C.get_pilot_desired_lean_angles (C.update_simple_mode v)
                (C.g_rc_1_control_in (C.update_simple_mode v))
                (C.g_rc_2_control_in (C.update_simple_mode v))
            else (s.guided_stabilize_target_roll, s.guided_stabilize_target_pitch)).1
            (if maskTest s.guided_stabilize_target_mask
                GUIDED_STABILIZE_TARGET_MASK_ATTITUDE_IGNORE then
              C.get_pilot_desired_lean_angles (C.update_simple_mode v)
                (C.g_rc_1_control_in (C.update_simple_mode v))
                (C.g_rc_2_control_in (C.update_simple_mode v))
            else (s.guided_stabilize_target_roll, s.guided_stabilize_target_pitch)).2
            (if maskTest s.guided_stabilize_target_mask
                GUIDED_STABILIZE_TARGET_MASK_YAW_RATE_IGNORE then
              C.get_pilot_desired_yaw_rate (C.update_simple_mode v)
                (C.g_rc_4_control_in (C.update_simple_mode v))
            else s.guided_stabilize_target_yaw_rate)
            (C.get_smoothing_gain (C.update_simple_mode v)),
          Call.set_throttle_out
            (C.get_pilot_desired_throttle (C.update_simple_mode v)
              (C.channel_throttle_control_in (C.update_simple_mode v)))
            true (C.g_throttle_filt (C.update_simple_mode v))] := by
  unfold guided_stabilize_run
  simp only [harmed, hthr]
  by_cases ha : maskTest s.guided_stabilize_target_mask
      GUIDED_STABILIZE_TARGET_MASK_ATTITUDE_IGNORE = true <;>
  by_cases hy : maskTest s.guided_stabilize_target_mask
      GUIDED_STABILIZE_TARGET_MASK_YAW_RATE_IGNORE = true <;>
  simp [ha, hy]

theorem init_mask (s : Statics) (ignore_checks : Bool) :
    (guided_stabilize_init s ignore_checks).2.1.guided_stabilize_target_mask = 3 := rfl

/-! ## Repeating a mask update -/

theorem clear_attitude_twice (m : Nat) :
    toUint16 (Int.land ((toUint16 (Int.land (m : Int)
        (Int.lnot GUIDED_STABILIZE_TARGET_MASK_ATTITUDE_IGNORE)) : Nat) : Int)
        (Int.lnot GUIDED_STABILIZE_TARGET_MASK_ATTITUDE_IGNORE))
      = toUint16 (Int.land (m : Int)
        (Int.lnot GUIDED_STABILIZE_TARGET_MASK_ATTITUDE_IGNORE)) := by
  apply Nat.eq_of_testBit_eq
  intro i
  rw [testBit_clear_attitude, testBit_clear_attitude]
  cases decide (i < 16) <;> cases m.testBit i <;> cases decide (0 = i) <;> rfl

theorem clear_yaw_rate_twice (m : Nat) :
    toUint16 (Int.land ((toUint16 (Int.land (m : Int)
        (Int.lnot GUIDED_STABILIZE_TARGET_MASK_YAW_RATE_IGNORE)) : Nat) : Int)
        (Int.lnot GUIDED_STABILIZE_TARGET_MASK_YAW_RATE_IGNORE))
      = toUint16 (Int.land (m : Int)
        (Int.lnot GUIDED_STABILIZE_TARGET_MASK_YAW_RATE_IGNORE)) := by
  apply Nat.eq_of_testBit_eq
  intro i
  rw [testBit_clear_yaw_rate, testBit_clear_yaw_rate]
  cases decide (i < 16) <;> cases m.testBit i <;> cases decide (1 = i) <;> rfl

theorem set_attitude_twice (m : Nat) :
    toUint16 (Int.lor ((toUint16 (Int.lor (m : Int)
        GUIDED_STABILIZE_TARGET_MASK_ATTITUDE_IGNORE) : Nat) : Int)
        GUIDED_STABILIZE_TARGET_MASK_ATTITUDE_IGNORE)
      = toUint16 (Int.lor (m : Int) GUIDED_STABILIZE_TARGET_MASK_ATTITUDE_IGNORE) := by
  apply Nat.eq_of_testBit_eq
  intro i
  rw [testBit_set_attitude, testBit_set_attitude]
  cases decide (i < 16) <;> cases m.testBit i <;> cases decide (0 = i) <;> rfl

theorem set_yaw_rate_twice (m : Nat) :
    toUint16 (Int.lor ((toUint16 (Int.lor (m : Int)
        GUIDED_STABILIZE_TARGET_MASK_YAW_RATE_IGNORE) : Nat) : Int)
        GUIDED_STABILIZE_TARGET_MASK_YAW_RATE_IGNORE)
      = toUint16 (Int.lor (m : Int) GUIDED_STABILIZE_TARGET_MASK_YAW_RATE_IGNORE) := by
  apply Nat.eq_of_testBit_eq
  intro i
  rw [testBit_set_yaw_rate, testBit_set_yaw_rate]
  cases decide (i < 16) <;> cases m.testBit i <;> cases decide (1 = i) <;> rfl

theorem iff_of_bit_set {P : Prop} {b : Bool} (hb : b = true) (hP : ¬P) :
    (b = false ↔ P) :=
  ⟨fun h => absurd (hb.symm.trans h) (by decide), fun h => absurd h hP⟩

/-! ## The mask updates touch one bit -/

theorem testBit_of_lt_uint16 (m i : Nat) (hm : m < 65536) (hi : ¬ i < 16) :
    m.testBit i = false := by
  apply Nat.testBit_eq_false_of_lt
  calc m < 2 ^ 16 := hm
    _ ≤ 2 ^ i := Nat.pow_le_pow_right (by norm_num) (by omega)

theorem clear_attitude_exact (m i : Nat) (hm : m < 65536) :
    (toUint16 (Int.land (m : Int)
      (Int.lnot GUIDED_STABILIZE_TARGET_MASK_ATTITUDE_IGNORE))).testBit i
      = (m.testBit i && !decide (i = 0)) := by
  rw [testBit_clear_attitude]
  by_cases hi : i < 16
  · by_cases h0 : i = 0
    · subst h0; simp
    · have h0' : ¬ 0 = i := fun h => h0 h.symm
      simp [hi, h0, h0']
  · rw [testBit_of_lt_uint16 m i hm hi]
    simp

theorem clear_yaw_rate_exact (m i : Nat) (hm : m < 65536) :
    (toUint16 (Int.land (m : Int)
      (Int.lnot GUIDED_STABILIZE_TARGET_MASK_YAW_RATE_IGNORE))).testBit i
      = (m.testBit i && !decide (i = 1)) := by
  rw [testBit_clear_yaw_rate]
  by_cases hi : i < 16
  · by_cases h1 : i = 1
    · subst h1; simp
    · have h1' : ¬ 1 = i := fun h => h1 h.symm
      simp [hi, h1, h1']
  · rw [testBit_of_lt_uint16 m i hm hi]
    simp

theorem set_attitude_exact (m i : Nat) (hm : m < 65536) :
    (toUint16 (Int.lor (m : Int) GUIDED_STABILIZE_TARGET_MASK_ATTITUDE_IGNORE)).testBit i
      = (m.testBit i || decide (i = 0)) := by
  rw [testBit_set_attitude]
  by_cases hi : i < 16
  · by_cases h0 : i = 0
    · subst h0; simp
    · have h0' : ¬ 0 = i := fun h => h0 h.symm
      simp [hi, h0, h0']
  · rw [testBit_of_lt_uint16 m i hm hi]
    have h0 : ¬ i = 0 := by omega
    have h0' : ¬ 0 = i := by omega
    simp [hi, h0, h0']

theorem set_yaw_rate_exact (m i : Nat) (hm : m < 65536) :
    (toUint16 (Int.lor (m : Int) GUIDED_STABILIZE_TARGET_MASK_YAW_RATE_IGNORE)).testBit i
      = (m.testBit i || decide (i = 1)) := by
  rw [testBit_set_yaw_rate]
  by_cases hi : i < 16
  · by_cases h1 : i = 1
    · subst h1; simp
    · have h1' : ¬ 1 = i := fun h => h1 h.symm
      simp [hi, h1, h1']
  · rw [testBit_of_lt_uint16 m i hm hi]
    have h1 : ¬ i = 1 := by omega
    have h1' : ¬ 1 = i := by omega
    simp [hi, h1, h1']

theorem toUint16_lt (x : Int) : toUint16 x < 65536 := by
  unfold toUint16
  omega

/-! ## Commutation with the two-switch model -/

theorem abstraction_set_target_attitude (s : Statics) (roll pitch : F32) :
    abstraction (guided_stabilize_set_target_attitude s roll pitch)
      = Spec.setTargetAttitude (abstraction s) roll pitch := by
  simp only [abstraction, Spec.setTargetAttitude, set_target_attitude_bit0,
    set_target_attitude_bit1]
  rfl

theorem abstraction_unset_target_attitude (s : Statics) :
    abstraction (guided_stabilize_unset_target_attitude s)
      = Spec.unsetTargetAttitude (abstraction s) := by
  simp only [abstraction, Spec.unsetTargetAttitude, unset_target_attitude_bit0,
    unset_target_attitude_bit1]
  rfl

theorem abstraction_set_target_yaw_rate (s : Statics) (yaw_rate : F32) :
    abstraction (guided_stabilize_set_target_yaw_rate s yaw_rate)
      = Spec.setTargetYawRate (abstraction s) yaw_rate := by
  simp only [abstraction, Spec.setTargetYawRate, set_target_yaw_rate_bit0,
    set_target_yaw_rate_bit1]
  rfl

theorem abstraction_unset_target_yaw_rate (s : Statics) :
    abstraction (guided_stabilize_unset_target_yaw_rate s)
      = Spec.unsetTargetYawRate (abstraction s) := by
  simp only [abstraction, Spec.unsetTargetYawRate, unset_target_yaw_rate_bit0,
    unset_target_yaw_rate_bit1]
  rfl

theorem spec_run_state {V : Type} (C : Copter V) (m : Spec.ModeController) (v : V) :
    (Spec.run C m v).1 = m := by
  unfold Spec.run
  split <;> rfl

theorem abstraction_run {V : Type} (C : Copter V) (s : Statics) (v : V) :
    abstraction (guided_stabilize_run C s v).statics = (Spec.run C (abstraction s) v).1
    ∧ (guided_stabilize_run C s v).vehicle = (Spec.run C (abstraction s) v).2.1
    ∧ (guided_stabilize_run C s v).calls = (Spec.run C (abstraction s) v).2.2 := by
  refine ⟨by rw [run_statics, spec_run_state], ?_⟩
  unfold guided_stabilize_run Spec.run abstraction
  simp only [maskTest_attitude, maskTest_yaw_rate]
  generalize s.guided_stabilize_target_mask.testBit 0 = b0
  generalize s.guided_stabilize_target_mask.testBit 1 = b1
  cases C.motors_armed v <;> cases C.ap_throttle_zero v <;> cases b0 <;> cases b1 <;>
    exact ⟨rfl, rfl⟩

/-! ## The setters, one assignment at a time: what a tick finds -/

theorem set_target_attitude_after_all (k : Nat) (hk : 3 ≤ k) (s : Statics) (roll pitch : F32) :
    set_target_attitude_after k s roll pitch
      = guided_stabilize_set_target_attitude s roll pitch := by
  obtain _ | _ | _ | k := k
  · omega
  · omega
  · omega
  · rfl

theorem set_target_yaw_rate_after_all (k : Nat) (hk : 2 ≤ k) (s : Statics) (yaw_rate : F32) :
    set_target_yaw_rate_after k s yaw_rate
      = guided_stabilize_set_target_yaw_rate s yaw_rate := by
  obtain _ | _ | k := k
  · omega
  · omega
  · rfl

theorem set_target_attitude_after_mask (k : Nat) (hk : k < 3) (s : Statics)
    (roll pitch : F32) :
    (set_target_attitude_after k s roll pitch).guided_stabilize_target_mask
      = s.guided_stabilize_target_mask := by
  obtain _ | _ | _ | k := k
  · rfl
  · rfl
  · rfl
  · omega

theorem set_target_yaw_rate_after_mask (k : Nat) (hk : k < 2) (s : Statics)
    (yaw_rate : F32) :
    (set_target_yaw_rate_after k s yaw_rate).guided_stabilize_target_mask
      = s.guided_stabilize_target_mask := by
  obtain _ | _ | k := k
  · rfl
  · rfl
  · omega

theorem set_target_attitude_after_values (k : Nat) (hk : 2 ≤ k) (s : Statics)
    (roll pitch : F32) :
    (set_target_attitude_after k s roll pitch).guided_stabilize_target_roll
        = F32.mul (F32.div (F32.ofInt 18000) M_PI_F) roll
    ∧ (set_target_attitude_after k s roll pitch).guided_stabilize_target_pitch
        = F32.mul (F32.div (F32.ofInt 18000) M_PI_F) pitch := by
  obtain _ | _ | _ | k := k
  · omega
  · omega
  · exact ⟨rfl, rfl⟩
  · exact ⟨rfl, rfl⟩

theorem set_target_yaw_rate_after_value (k : Nat) (hk : 1 ≤ k) (s : Statics)
    (yaw_rate : F32) :
    (set_target_yaw_rate_after k s yaw_rate).guided_stabilize_target_yaw_rate
        = F32.mul (F32.div (F32.ofInt 18000) M_PI_F) yaw_rate := by
  obtain _ | _ | k := k
  · omega
  · rfl
  · rfl

theorem run_open_roll_pitch_pilot {V : Type} (C : Copter V) (s : Statics) (v : V)
    (harmed : C.motors_armed v = true) (hthr : C.ap_throttle_zero v = false)
    (hpilot : maskTest s.guided_stabilize_target_mask
      GUIDED_STABILIZE_TARGET_MASK_ATTITUDE_IGNORE = true) :
    (attitudeCalls (guided_stabilize_run C s v).calls).map (fun a => (a.1, a.2.1))
      = [C.get_pilot_desired_lean_angles (C.update_simple_mode v)
          (C.g_rc_1_control_in (C.update_simple_mode v))
          (C.g_rc_2_control_in (C.update_simple_mode v))] := by
  rw [run_open_attitudeCalls C s v harmed hthr]
  simp [hpilot]

theorem run_open_roll_pitch_external {V : Type} (C : Copter V) (s : Statics) (v : V)
    (harmed : C.motors_armed v = true) (hthr : C.ap_throttle_zero v = false)
    (hext : maskTest s.guided_stabilize_target_mask
      GUIDED_STABILIZE_TARGET_MASK_ATTITUDE_IGNORE = false) :
    (attitudeCalls (guided_stabilize_run C s v).calls).map (fun a => (a.1, a.2.1))
      = [(s.guided_stabilize_target_roll, s.guided_stabilize_target_pitch)] := by
  rw [run_open_attitudeCalls C s v harmed hthr]
  simp [hext]

theorem run_open_yaw_rate_pilot {V : Type} (C : Copter V) (s : Statics) (v : V)
    (harmed : C.motors_armed v = true) (hthr : C.ap_throttle_zero v = false)
    (hpilot : maskTest s.guided_stabilize_target_mask
      GUIDED_STABILIZE_TARGET_MASK_YAW_RATE_IGNORE = true) :
    (attitudeCalls (guided_stabilize_run C s v).calls).map (fun a => a.2.2.1)
      = [C.get_pilot_desired_yaw_rate (C.update_simple_mode v)
          (C.g_rc_4_control_in (C.update_simple_mode v))] := by
  rw [run_open_attitudeCalls C s v harmed hthr]
  simp [hpilot]

theorem run_open_yaw_rate_external {V : Type} (C : Copter V) (s : Statics) (v : V)
    (harmed : C.motors_armed v = true) (hthr : C.ap_throttle_zero v = false)
    (hext : maskTest s.guided_stabilize_target_mask
      GUIDED_STABILIZE_TARGET_MASK_YAW_RATE_IGNORE = false) :
    (attitudeCalls (guided_stabilize_run C s v).calls).map (fun a => a.2.2.1)
      = [s.guided_stabilize_target_yaw_rate] := by
  rw [run_open_attitudeCalls C s v harmed hthr]
  simp [hext]

/-! ## The claims -/

/-- C1 (safety gate): whenever the vehicle is not armed or the throttle-zero
flag is set, the tick consists of the armed query, the unstabilized throttle
command with value 0 and the configured filter, and a slow-start when
`land_complete` holds; in particular the unstabilized zero-throttle command is
issued, there is no attitude-controller call and no stabilized
`set_throttle_out` call, and a landed vehicle gets the slow-start. -/
theorem safety_gate_zero_throttle {V : Type} (C : Copter V) (s : Statics) (v : V)
    (hgate : C.motors_armed v = false ∨ C.ap_throttle_zero v = true) :
    (guided_stabilize_run C s v).calls =
        [Call.motors_armed,
         Call.set_throttle_out_unstabilized 0 true (C.g_throttle_filt v)]
        ++ (if C.ap_land_complete v then [Call.slow_start true] else [])
    ∧ Call.set_throttle_out_unstabilized 0 true (C.g_throttle_filt v)
        ∈ (guided_stabilize_run C s v).calls
    ∧ attitudeCalls (guided_stabilize_run C s v).calls = []
    ∧ throttleOutCalls (guided_stabilize_run C s v).calls = []
    ∧ (C.ap_land_complete v = true →
        Call.slow_start true ∈ (guided_stabilize_run C s v).calls) := by
  rw [run_gated C s v hgate]
  refine ⟨rfl, by simp, ?_, ?_, ?_⟩
  · cases C.ap_land_complete v <;> simp [attitudeCalls, Call.attitudeArgs]
  · cases C.ap_land_complete v <;> simp [throttleOutCalls, Call.throttleOutArgs]
  · intro h
    simp [h]

/-- Witness for C1: the disarmed, landed sample vehicle. -/
theorem safety_gate_zero_throttle_witness :
    (sampleCopter.motors_armed landed = false ∨ sampleCopter.ap_throttle_zero landed = true)
    ∧ (guided_stabilize_run sampleCopter Statics.zero landed).calls =
        [Call.motors_armed,
         Call.set_throttle_out_unstabilized 0 true (sampleCopter.g_throttle_filt landed)]
        ++ (if sampleCopter.ap_land_complete landed then [Call.slow_start true] else []) :=
  ⟨Or.inl rfl, (safety_gate_zero_throttle sampleCopter Statics.zero landed (Or.inl rfl)).1⟩

/-- C2: whatever the prior statics, after `guided_stabilize_init` the mask is
`3`, so both IGNORE bits are set and both tests of `guided_stabilize_run` take
the pilot branch, and the stored roll, pitch and yaw-rate targets are `+0.0`. -/
theorem init_resets_to_pilot (s : Statics) (ignore_checks : Bool) :
    (guided_stabilize_init s ignore_checks).2.1.guided_stabilize_target_mask = 3
    ∧ maskTest (guided_stabilize_init s ignore_checks).2.1.guided_stabilize_target_mask
        GUIDED_STABILIZE_TARGET_MASK_ATTITUDE_IGNORE = true
    ∧ maskTest (guided_stabilize_init s ignore_checks).2.1.guided_stabilize_target_mask
        GUIDED_STABILIZE_TARGET_MASK_YAW_RATE_IGNORE = true
    ∧ (guided_stabilize_init s ignore_checks).2.1.guided_stabilize_target_roll
        = F32.finite false 0 (-149)
    ∧ (guided_stabilize_init s ignore_checks).2.1.guided_stabilize_target_pitch
        = F32.finite false 0 (-149)
    ∧ (guided_stabilize_init s ignore_checks).2.1.guided_stabilize_target_yaw_rate
        = F32.finite false 0 (-149) := by
  have hm : (guided_stabilize_init s ignore_checks).2.1.guided_stabilize_target_mask = 3 := rfl
  refine ⟨hm, ?_, ?_, rfl, rfl, rfl⟩
  · rw [hm]; decide
  · rw [hm]; decide

/-- C3: on a gate-open tick (armed, throttle not zero) whose attitude test
takes the pilot branch, the one attitude-controller call gets as roll and pitch
the output of `get_pilot_desired_lean_angles` for the roll and pitch sticks (as
read after the simple-mode transform), and replacing the stored external roll
and pitch by any other values changes no call of the tick. -/
theorem pilot_attitude_source_passes_pilot_lean_angles {V : Type} (C : Copter V)
    (s : Statics) (v : V) (roll' pitch' : F32)
    (harmed : C.motors_armed v = true) (hthr : C.ap_throttle_zero v = false)
    (hpilot : maskTest s.guided_stabilize_target_mask
      GUIDED_STABILIZE_TARGET_MASK_ATTITUDE_IGNORE = true) :
    (attitudeCalls (guided_stabilize_run C s v).calls).map (fun a => (a.1, a.2.1))
      = [C.get_pilot_desired_lean_angles (C.update_simple_mode v)
          (C.g_rc_1_control_in (C.update_simple_mode v))
          (C.g_rc_2_control_in (C.update_simple_mode v))]
    ∧ (guided_stabilize_run C
        { s with guided_stabilize_target_roll := roll'
                 guided_stabilize_target_pitch := pitch' } v).calls
      = (guided_stabilize_run C s v).calls := by
  constructor
  · rw [run_open_attitudeCalls C s v harmed hthr]
    simp [hpilot]
  · unfold guided_stabilize_run
    simp [harmed, hthr, hpilot]

/-- Witness for C3: the flying sample vehicle after `guided_stabilize_init`. -/
theorem pilot_attitude_source_passes_pilot_lean_angles_witness :
    (sampleCopter.motors_armed flying = true ∧ sampleCopter.ap_throttle_zero flying = false
      ∧ maskTest (guided_stabilize_init Statics.zero false).2.1.guided_stabilize_target_mask
          GUIDED_STABILIZE_TARGET_MASK_ATTITUDE_IGNORE = true)
    ∧ (attitudeCalls (guided_stabilize_run sampleCopter
          (guided_stabilize_init Statics.zero false).2.1 flying).calls).map
          (fun a => (a.1, a.2.1))
        = [sampleCopter.get_pilot_desired_lean_angles (sampleCopter.update_simple_mode flying)
            (sampleCopter.g_rc_1_control_in (sampleCopter.update_simple_mode flying))
            (sampleCopter.g_rc_2_control_in (sampleCopter.update_simple_mode flying))] :=
  ⟨⟨rfl, rfl, by decide⟩,
   (pilot_attitude_source_passes_pilot_lean_angles sampleCopter
      (guided_stabilize_init Statics.zero false).2.1 flying f32_0_1 f32_0 rfl rfl
      (by decide)).1⟩

/-- C4: for every single-precision roll and pitch (NaN and the infinities
included: nothing is clamped or rejected) and every prior statics,
`guided_stabilize_set_target_attitude` followed by a gate-open tick makes one
attitude-controller call, whose roll and pitch are exactly the products
`(18000/M_PI_F)*roll` and `(18000/M_PI_F)*pitch` of the source, in single
precision, for every vehicle context and so for every stick position; and for
a normal single-precision `x` of magnitude below `2^114` that product is within
relative error `2^-23` of the real number `x * 18000 / π`. -/
theorem set_target_attitude_then_run_passes_converted {V : Type} (C : Copter V)
    (s : Statics) (v : V) (roll pitch : F32)
    (harmed : C.motors_armed v = true) (hthr : C.ap_throttle_zero v = false) :
    (attitudeCalls (guided_stabilize_run C
        (guided_stabilize_set_target_attitude s roll pitch) v).calls).map
        (fun a => (a.1, a.2.1))
      = [(F32.mul (F32.div (F32.ofInt 18000) M_PI_F) roll,
          F32.mul (F32.div (F32.ofInt 18000) M_PI_F) pitch)]
    ∧ (∀ (sg : Bool) (m : Nat) (e : Int), 2 ^ 23 ≤ m → m < 2 ^ 24 → -149 ≤ e → e ≤ 90 →
        ∃ x y : ℚ, F32.toRat (F32.finite sg m e) = some x
          ∧ F32.toRat (F32.mul (F32.div (F32.ofInt 18000) M_PI_F) (F32.finite sg m e)) = some y
          ∧ |(y : ℝ) - x * 18000 / Real.pi| ≤ |(x : ℝ) * 18000 / Real.pi| / 2 ^ 23) := by
  refine ⟨?_, centidegrees_accuracy⟩
  rw [run_open_attitudeCalls C _ v harmed hthr]
  have h : maskTest (guided_stabilize_set_target_attitude s roll pitch).guided_stabilize_target_mask
      GUIDED_STABILIZE_TARGET_MASK_ATTITUDE_IGNORE = false := by
    rw [maskTest_attitude, set_target_attitude_bit0]
  rw [h]
  rfl

/-- Witness for C4: the flying sample vehicle, roll `0.1` and pitch `0`. -/
theorem set_target_attitude_then_run_passes_converted_witness :
    (sampleCopter.motors_armed flying = true ∧ sampleCopter.ap_throttle_zero flying = false)
    ∧ (attitudeCalls (guided_stabilize_run sampleCopter
          (guided_stabilize_set_target_attitude Statics.zero f32_0_1 f32_0) flying).calls).map
          (fun a => (a.1, a.2.1))
        = [(F32.mul (F32.div (F32.ofInt 18000) M_PI_F) f32_0_1,
            F32.mul (F32.div (F32.ofInt 18000) M_PI_F) f32_0)] :=
  ⟨⟨rfl, rfl⟩,
   (set_target_attitude_then_run_passes_converted sampleCopter Statics.zero flying
      f32_0_1 f32_0 rfl rfl).1⟩

/-- C5: after `guided_stabilize_set_target_attitude` and then
`guided_stabilize_unset_target_attitude`, the stored roll and pitch are still
the converted values, the yaw-rate bit and the stored yaw rate are those of
before, the attitude test takes the pilot branch, and after any number of
further ticks a gate-open tick passes the pilot lean angles as roll and pitch. -/
theorem unset_target_attitude_reverts_to_pilot {V : Type} (C : Copter V)
    (s : Statics) (roll pitch : F32) (vs : List V) (v : V)
    (harmed : C.motors_armed v = true) (hthr : C.ap_throttle_zero v = false) :
    (guided_stabilize_unset_target_attitude
        (guided_stabilize_set_target_attitude s roll pitch)).guided_stabilize_target_roll
      = (guided_stabilize_set_target_attitude s roll pitch).guided_stabilize_target_roll
    ∧ (guided_stabilize_unset_target_attitude
        (guided_stabilize_set_target_attitude s roll pitch)).guided_stabilize_target_pitch
      = (guided_stabilize_set_target_attitude s roll pitch).guided_stabilize_target_pitch
    ∧ (guided_stabilize_unset_target_attitude
        (guided_stabilize_set_target_attitude s roll pitch)).guided_stabilize_target_yaw_rate
      = (guided_stabilize_set_target_attitude s roll pitch).guided_stabilize_target_yaw_rate
    ∧ maskTest (guided_stabilize_unset_target_attitude
        (guided_stabilize_set_target_attitude s roll pitch)).guided_stabilize_target_mask
        GUIDED_STABILIZE_TARGET_MASK_YAW_RATE_IGNORE
      = maskTest (guided_stabilize_set_target_attitude s roll pitch).guided_stabilize_target_mask
        GUIDED_STABILIZE_TARGET_MASK_YAW_RATE_IGNORE
    ∧ maskTest (guided_stabilize_unset_target_attitude
        (guided_stabilize_set_target_attitude s roll pitch)).guided_stabilize_target_mask
        GUIDED_STABILIZE_TARGET_MASK_ATTITUDE_IGNORE = true
    ∧ (attitudeCalls (guided_stabilize_run C
          (runTicks C (guided_stabilize_unset_target_attitude
            (guided_stabilize_set_target_attitude s roll pitch)) vs) v).calls).map
          (fun a => (a.1, a.2.1))
        = [C.get_pilot_desired_lean_angles (C.update_simple_mode v)
            (C.g_rc_1_control_in (C.update_simple_mode v))
            (C.g_rc_2_control_in (C.update_simple_mode v))] := by
  have hp : maskTest (guided_stabilize_unset_target_attitude
        (guided_stabilize_set_target_attitude s roll pitch)).guided_stabilize_target_mask
        GUIDED_STABILIZE_TARGET_MASK_ATTITUDE_IGNORE = true := by
    rw [maskTest_attitude, unset_target_attitude_bit0]
  refine ⟨rfl, rfl, rfl, ?_, hp, ?_⟩
  · rw [maskTest_yaw_rate, maskTest_yaw_rate, unset_target_attitude_bit1]
  · rw [runTicks_statics, run_open_attitudeCalls C _ v harmed hthr]
    simp [hp]

/-- Witness for C5: set `(0.1, 0)`, unset, one gated tick, then the flying
sample vehicle. -/
theorem unset_target_attitude_reverts_to_pilot_witness :
    (sampleCopter.motors_armed flying = true ∧ sampleCopter.ap_throttle_zero flying = false)
    ∧ (attitudeCalls (guided_stabilize_run sampleCopter
          (runTicks sampleCopter (guided_stabilize_unset_target_attitude
            (guided_stabilize_set_target_attitude Statics.zero f32_0_1 f32_0)) [landed])
          flying).calls).map (fun a => (a.1, a.2.1))
        = [sampleCopter.get_pilot_desired_lean_angles (sampleCopter.update_simple_mode flying)
            (sampleCopter.g_rc_1_control_in (sampleCopter.update_simple_mode flying))
            (sampleCopter.g_rc_2_control_in (sampleCopter.update_simple_mode flying))] :=
  ⟨⟨rfl, rfl⟩,
   (unset_target_attitude_reverts_to_pilot sampleCopter Statics.zero f32_0_1 f32_0
      [landed] flying rfl rfl).2.2.2.2.2⟩

/-- C6 (axis independence): setting or unsetting the attitude target leaves
bit 1 of the mask (the yaw-rate test) and the stored yaw rate unchanged, and
setting or unsetting the yaw-rate target leaves bit 0 of the mask (the attitude
test) and the stored roll and pitch unchanged, for every statics and argument. -/
theorem axis_independence (s : Statics) (roll pitch yaw_rate : F32) :
    ((guided_stabilize_set_target_attitude s roll pitch).guided_stabilize_target_mask.testBit 1
        = s.guided_stabilize_target_mask.testBit 1
      ∧ maskTest (guided_stabilize_set_target_attitude s roll pitch).guided_stabilize_target_mask
          GUIDED_STABILIZE_TARGET_MASK_YAW_RATE_IGNORE
        = maskTest s.guided_stabilize_target_mask GUIDED_STABILIZE_TARGET_MASK_YAW_RATE_IGNORE
      ∧ (guided_stabilize_set_target_attitude s roll pitch).guided_stabilize_target_yaw_rate
        = s.guided_stabilize_target_yaw_rate)
    ∧ ((guided_stabilize_unset_target_attitude s).guided_stabilize_target_mask.testBit 1
        = s.guided_stabilize_target_mask.testBit 1
      ∧ maskTest (guided_stabilize_unset_target_attitude s).guided_stabilize_target_mask
          GUIDED_STABILIZE_TARGET_MASK_YAW_RATE_IGNORE
        = maskTest s.guided_stabilize_target_mask GUIDED_STABILIZE_TARGET_MASK_YAW_RATE_IGNORE
      ∧ (guided_stabilize_unset_target_attitude s).guided_stabilize_target_yaw_rate
        = s.guided_stabilize_target_yaw_rate)
    ∧ ((guided_stabilize_set_target_yaw_rate s yaw_rate).guided_stabilize_target_mask.testBit 0
        = s.guided_stabilize_target_mask.testBit 0
      ∧ maskTest (guided_stabilize_set_target_yaw_rate s yaw_rate).guided_stabilize_target_mask
          GUIDED_STABILIZE_TARGET_MASK_ATTITUDE_IGNORE
        = maskTest s.guided_stabilize_target_mask GUIDED_STABILIZE_TARGET_MASK_ATTITUDE_IGNORE
      ∧ (guided_stabilize_set_target_yaw_rate s yaw_rate).guided_stabilize_target_roll
        = s.guided_stabilize_target_roll
      ∧ (guided_stabilize_set_target_yaw_rate s yaw_rate).guided_stabilize_target_pitch
        = s.guided_stabilize_target_pitch)
    ∧ ((guided_stabilize_unset_target_yaw_rate s).guided_stabilize_target_mask.testBit 0
        = s.guided_stabilize_target_mask.testBit 0
      ∧ maskTest (guided_stabilize_unset_target_yaw_rate s).guided_stabilize_target_mask
          GUIDED_STABILIZE_TARGET_MASK_ATTITUDE_IGNORE
        = maskTest s.guided_stabilize_target_mask GUIDED_STABILIZE_TARGET_MASK_ATTITUDE_IGNORE
      ∧ (guided_stabilize_unset_target_yaw_rate s).guided_stabilize_target_roll
        = s.guided_stabilize_target_roll
      ∧ (guided_stabilize_unset_target_yaw_rate s).guided_stabilize_target_pitch
        = s.guided_stabilize_target_pitch) := by
  have h1 := set_target_attitude_bit1 s roll pitch
  have h2 := unset_target_attitude_bit1 s
  have h3 := set_target_yaw_rate_bit0 s yaw_rate
  have h4 := unset_target_yaw_rate_bit0 s
  refine ⟨⟨h1, ?_, rfl⟩, ⟨h2, ?_, rfl⟩, ⟨h3, ?_, rfl, rfl⟩, ⟨h4, ?_, rfl, rfl⟩⟩
  · rw [maskTest_yaw_rate, maskTest_yaw_rate, h1]
  · rw [maskTest_yaw_rate, maskTest_yaw_rate, h2]
  · rw [maskTest_attitude, maskTest_attitude, h3]
  · rw [maskTest_attitude, maskTest_attitude, h4]

/-- The datum `f32_0_1` is the correctly rounded quotient `1/10`, and its value
differs from `1/10` by less than `2^-28`. -/
theorem f32_0_1_nearest :
    F32.div (F32.ofInt 1) (F32.ofInt 10) = f32_0_1
    ∧ ∃ q : ℚ, F32.toRat f32_0_1 = some q ∧ |q - 1 / 10| < 1 / 2 ^ 28 := by
  refine ⟨by decide, 13421773 / 134217728, ?_, ?_⟩
  · simp only [f32_0_1, F32.toRat]
    norm_num
  · rw [abs_lt]
    constructor <;> norm_num

/-- C7 (scenario): from the statics left by `guided_stabilize_init`,
`guided_stabilize_set_target_attitude(0.1, 0.0)` stores as roll the binary32
number `9387340 * 2^-14 = 572.957763671875`, which lies within `0.005` of
`572.96` and within `0.00004` of the real number `0.1 * 18000 / π`, and stores
`+0.0` as pitch; the next gate-open tick passes exactly the stored roll and
pitch to the attitude controller, with the pilot yaw rate for the yaw stick. -/
theorem scenario_external_roll_tenth_radian {V : Type} (C : Copter V) (s : Statics)
    (ignore_checks : Bool) (v : V)
    (harmed : C.motors_armed v = true) (hthr : C.ap_throttle_zero v = false) :
    (∃ q : ℚ,
        F32.toRat (guided_stabilize_set_target_attitude
          (guided_stabilize_init s ignore_checks).2.1 f32_0_1 f32_0).guided_stabilize_target_roll
          = some q
        ∧ |q - 572.96| ≤ 0.005
        ∧ |(q : ℝ) - 0.1 * 18000 / Real.pi| < 0.00004)
    ∧ (guided_stabilize_set_target_attitude
          (guided_stabilize_init s ignore_checks).2.1 f32_0_1 f32_0).guided_stabilize_target_roll
        = F32.finite false 9387340 (-14)
    ∧ (guided_stabilize_set_target_attitude
          (guided_stabilize_init s ignore_checks).2.1 f32_0_1 f32_0).guided_stabilize_target_pitch
        = F32.finite false 0 (-149)
    ∧ attitudeCalls (guided_stabilize_run C (guided_stabilize_set_target_attitude
          (guided_stabilize_init s ignore_checks).2.1 f32_0_1 f32_0) v).calls
        = [(F32.finite false 9387340 (-14), F32.finite false 0 (-149),
            C.get_pilot_desired_yaw_rate (C.update_simple_mode v)
              (C.g_rc_4_control_in (C.update_simple_mode v)),
            C.get_smoothing_gain (C.update_simple_mode v))] := by
  have hroll : (guided_stabilize_set_target_attitude
      (guided_stabilize_init s ignore_checks).2.1 f32_0_1 f32_0).guided_stabilize_target_roll
      = F32.finite false 9387340 (-14) := by
    show F32.mul (F32.div (F32.ofInt 18000) M_PI_F) f32_0_1 = _
    decide
  have hpitch : (guided_stabilize_set_target_attitude
      (guided_stabilize_init s ignore_checks).2.1 f32_0_1 f32_0).guided_stabilize_target_pitch
      = F32.finite false 0 (-149) := by
    show F32.mul (F32.div (F32.ofInt 18000) M_PI_F) f32_0 = _
    decide
  have hatt : maskTest (guided_stabilize_set_target_attitude
      (guided_stabilize_init s ignore_checks).2.1 f32_0_1 f32_0).guided_stabilize_target_mask
      GUIDED_STABILIZE_TARGET_MASK_ATTITUDE_IGNORE = false := by
    rw [maskTest_attitude, set_target_attitude_bit0]
  have hyaw : maskTest (guided_stabilize_set_target_attitude
      (guided_stabilize_init s ignore_checks).2.1 f32_0_1 f32_0).guided_stabilize_target_mask
      GUIDED_STABILIZE_TARGET_MASK_YAW_RATE_IGNORE = true := by
    have hm : (guided_stabilize_init s ignore_checks).2.1.guided_stabilize_target_mask = 3 := rfl
    rw [maskTest_yaw_rate, set_target_attitude_bit1, hm]
    decide
  refine ⟨⟨2346835 / 4096, ?_, ?_, ?_⟩, hroll, hpitch, ?_⟩
  · rw [hroll]
    simp only [F32.toRat]
    norm_num
  · rw [abs_le]
    constructor <;> norm_num
  · have hlo := Real.pi_gt_d20
    have hhi := Real.pi_lt_d20
    have hpos : (0 : ℝ) < Real.pi := Real.pi_pos
    have hx_lo : (572.9577951 : ℝ) < 0.1 * 18000 / Real.pi := by
      rw [lt_div_iff₀ hpos]
      linarith
    have hx_hi : 0.1 * 18000 / Real.pi < (572.9577952 : ℝ) := by
      rw [div_lt_iff₀ hpos]
      linarith
    have hq : ((2346835 / 4096 : ℚ) : ℝ) = 572.957763671875 := by
      push_cast
      norm_num
    rw [hq, abs_lt]
    constructor <;> linarith
  · rw [run_open_attitudeCalls C _ v harmed hthr, hatt, hyaw, hroll, hpitch]
    rfl

/-- Witness for C7: the flying sample vehicle, starting from zeroed statics. -/
theorem scenario_external_roll_tenth_radian_witness :
    (sampleCopter.motors_armed flying = true ∧ sampleCopter.ap_throttle_zero flying = false)
    ∧ attitudeCalls (guided_stabilize_run sampleCopter (guided_stabilize_set_target_attitude
          (guided_stabilize_init Statics.zero false).2.1 f32_0_1 f32_0) flying).calls
        = [(F32.finite false 9387340 (-14), F32.finite false 0 (-149),
            sampleCopter.get_pilot_desired_yaw_rate (sampleCopter.update_simple_mode flying)
              (sampleCopter.g_rc_4_control_in (sampleCopter.update_simple_mode flying)),
            sampleCopter.get_smoothing_gain (sampleCopter.update_simple_mode flying))] :=
  ⟨⟨rfl, rfl⟩,
   (scenario_external_roll_tenth_radian sampleCopter Statics.zero false flying
      rfl rfl).2.2.2⟩

/-- C8 (yaw-rate resolution): for every single-precision rate and every prior
statics, `guided_stabilize_set_target_yaw_rate` followed by a gate-open tick
passes the single-precision product `(18000/M_PI_F)*yaw_rate` as yaw rate, for
every vehicle context and so for every yaw stick; on a gate-open tick whose
yaw-rate test takes the pilot branch the yaw rate passed is
`get_pilot_desired_yaw_rate` of the yaw stick, whatever value is stored as
external yaw rate; and for a normal single-precision `x` of magnitude below
`2^114` the product is within relative error `2^-23` of `x * 18000 / π`. -/
theorem yaw_rate_resolution {V : Type} (C : Copter V) (s : Statics) (v : V)
    (yaw_rate stored : F32)
    (harmed : C.motors_armed v = true) (hthr : C.ap_throttle_zero v = false) :
    (attitudeCalls (guided_stabilize_run C
        (guided_stabilize_set_target_yaw_rate s yaw_rate) v).calls).map (fun a => a.2.2.1)
      = [F32.mul (F32.div (F32.ofInt 18000) M_PI_F) yaw_rate]
    ∧ (maskTest s.guided_stabilize_target_mask
          GUIDED_STABILIZE_TARGET_MASK_YAW_RATE_IGNORE = true →
        (attitudeCalls (guided_stabilize_run C
          { s with guided_stabilize_target_yaw_rate := stored } v).calls).map
            (fun a => a.2.2.1)
          = [C.get_pilot_desired_yaw_rate (C.update_simple_mode v)
              (C.g_rc_4_control_in (C.update_simple_mode v))])
    ∧ (∀ (sg : Bool) (m : Nat) (e : Int), 2 ^ 23 ≤ m → m < 2 ^ 24 → -149 ≤ e → e ≤ 90 →
        ∃ x y : ℚ, F32.toRat (F32.finite sg m e) = some x
          ∧ F32.toRat (F32.mul (F32.div (F32.ofInt 18000) M_PI_F) (F32.finite sg m e)) = some y
          ∧ |(y : ℝ) - x * 18000 / Real.pi| ≤ |(x : ℝ) * 18000 / Real.pi| / 2 ^ 23) := by
  refine ⟨?_, ?_, centidegrees_accuracy⟩
  · rw [run_open_attitudeCalls C _ v harmed hthr]
    have h : maskTest (guided_stabilize_set_target_yaw_rate s yaw_rate).guided_stabilize_target_mask
        GUIDED_STABILIZE_TARGET_MASK_YAW_RATE_IGNORE = false := by
      rw [maskTest_yaw_rate, set_target_yaw_rate_bit1]
    rw [h]
    rfl
  · intro hpilot
    rw [run_open_attitudeCalls C _ v harmed hthr]
    simp [hpilot]

/-- Witness for C8: the flying sample vehicle, rate `0.1` rad/s. -/
theorem yaw_rate_resolution_witness :
    (sampleCopter.motors_armed flying = true ∧ sampleCopter.ap_throttle_zero flying = false)
    ∧ (attitudeCalls (guided_stabilize_run sampleCopter
        (guided_stabilize_set_target_yaw_rate Statics.zero f32_0_1) flying).calls).map
          (fun a => a.2.2.1)
      = [F32.mul (F32.div (F32.ofInt 18000) M_PI_F) f32_0_1] :=
  ⟨⟨rfl, rfl⟩, (yaw_rate_resolution sampleCopter Statics.zero flying f32_0_1 f32_0 rfl rfl).1⟩

/-- C9 (throttle is always pilot-sourced): on a gate-open tick there is exactly
one `set_throttle_out` call; its throttle is `get_pilot_desired_throttle` of the
throttle stick, its angle-boost flag is `true` and its filter is
`g.throttle_filt`; and the call is the same for any two statics, that is for
every mask and every stored external roll, pitch and yaw rate. -/
theorem throttle_always_pilot_sourced {V : Type} (C : Copter V) (s s' : Statics) (v : V)
    (harmed : C.motors_armed v = true) (hthr : C.ap_throttle_zero v = false) :
    throttleOutCalls (guided_stabilize_run C s v).calls
      = [(C.get_pilot_desired_throttle (C.update_simple_mode v)
            (C.channel_throttle_control_in (C.update_simple_mode v)),
          true, C.g_throttle_filt (C.update_simple_mode v))]
    ∧ throttleOutCalls (guided_stabilize_run C s' v).calls
      = throttleOutCalls (guided_stabilize_run C s v).calls := by
  rw [run_open_throttleOutCalls C s v harmed hthr, run_open_throttleOutCalls C s' v harmed hthr]
  exact ⟨rfl, rfl⟩

/-- Witness for C9: the flying sample vehicle, with external attitude and yaw
rate against the statics left by `guided_stabilize_init`. -/
theorem throttle_always_pilot_sourced_witness :
    (sampleCopter.motors_armed flying = true ∧ sampleCopter.ap_throttle_zero flying = false)
    ∧ throttleOutCalls (guided_stabilize_run sampleCopter
        (guided_stabilize_set_target_yaw_rate
          (guided_stabilize_set_target_attitude Statics.zero f32_0_1 f32_0) f32_0_1)
        flying).calls
      = [(500, true, F32.finite false 0 (-149))] :=
  ⟨⟨rfl, rfl⟩,
   (throttle_always_pilot_sourced sampleCopter
      (guided_stabilize_set_target_yaw_rate
        (guided_stabilize_set_target_attitude Statics.zero f32_0_1 f32_0) f32_0_1)
      (guided_stabilize_init Statics.zero false).2.1 flying rfl rfl).1⟩

/-- C10: `guided_stabilize_run` leaves the four statics as they were, on the
gated and on the gate-open path alike, for every statics and vehicle context;
hence they are unchanged after any number of ticks. -/
theorem run_never_writes_statics {V : Type} (C : Copter V) (s : Statics) (v : V)
    (vs : List V) :
    (guided_stabilize_run C s v).statics = s ∧ runTicks C s vs = s :=
  ⟨run_statics C s v, runTicks_statics C s vs⟩

/-- C11: `guided_stabilize_init` returns `true` for every prior statics and both
values of `ignore_checks`; its whole outcome (flag, statics, calls) is the same
for `ignore_checks = true` and `ignore_checks = false`; and the one call it
makes is `set_alt_target(0)`. -/
theorem init_always_succeeds_ignoring_checks (s : Statics) (ignore_checks : Bool) :
    (guided_stabilize_init s ignore_checks).1 = true
    ∧ guided_stabilize_init s true = guided_stabilize_init s false
    ∧ (guided_stabilize_init s ignore_checks).2.2 = [Call.set_alt_target 0] :=
  ⟨rfl, rfl, rfl⟩

/-- C12: from statics whose attitude test takes the pilot branch, an operation
leaves the attitude test on the external branch if and only if it is
`guided_stabilize_set_target_attitude`; so `guided_stabilize_init`,
`guided_stabilize_run`, `guided_stabilize_unset_target_attitude` and the two
yaw-rate commands all leave it on the pilot branch.  Symmetrically for the
yaw-rate test and `guided_stabilize_set_target_yaw_rate`. -/
theorem only_set_command_hands_axis_to_external {V : Type} (C : Copter V) (s : Statics)
    (op : Operation V) :
    (maskTest s.guided_stabilize_target_mask
        GUIDED_STABILIZE_TARGET_MASK_ATTITUDE_IGNORE = true →
      (maskTest (op.apply C s).guided_stabilize_target_mask
          GUIDED_STABILIZE_TARGET_MASK_ATTITUDE_IGNORE = false
        ↔ ∃ roll pitch, op = Operation.command (Command.set_target_attitude roll pitch)))
    ∧ (maskTest s.guided_stabilize_target_mask
        GUIDED_STABILIZE_TARGET_MASK_YAW_RATE_IGNORE = true →
      (maskTest (op.apply C s).guided_stabilize_target_mask
          GUIDED_STABILIZE_TARGET_MASK_YAW_RATE_IGNORE = false
        ↔ ∃ yaw_rate, op = Operation.command (Command.set_target_yaw_rate yaw_rate))) := by
  simp only [maskTest_attitude, maskTest_yaw_rate]
  constructor
  · intro hs
    cases op with
    | init b =>
      exact iff_of_bit_set (by rw [show (Operation.apply C s (Operation.init b)) =
        (guided_stabilize_init s b).2.1 from rfl, init_mask]; decide)
        (fun ⟨_, _, h⟩ => by cases h)
    | run v =>
      exact iff_of_bit_set (by rw [show (Operation.apply C s (Operation.run v)) =
        (guided_stabilize_run C s v).statics from rfl, run_statics]; exact hs)
        (fun ⟨_, _, h⟩ => by cases h)
    | command c =>
      cases c with
      | set_target_attitude roll pitch =>
        exact ⟨fun _ => ⟨roll, pitch, rfl⟩, fun _ => set_target_attitude_bit0 s roll pitch⟩
      | unset_target_attitude =>
        exact iff_of_bit_set (unset_target_attitude_bit0 s) (fun ⟨_, _, h⟩ => by cases h)
      | set_target_yaw_rate yaw_rate =>
        exact iff_of_bit_set ((set_target_yaw_rate_bit0 s yaw_rate).trans hs)
          (fun ⟨_, _, h⟩ => by cases h)
      | unset_target_yaw_rate =>
        exact iff_of_bit_set ((unset_target_yaw_rate_bit0 s).trans hs)
          (fun ⟨_, _, h⟩ => by cases h)
  · intro hs
    cases op with
    | init b =>
      exact iff_of_bit_set (by rw [show (Operation.apply C s (Operation.init b)) =
        (guided_stabilize_init s b).2.1 from rfl, init_mask]; decide)
        (fun ⟨_, h⟩ => by cases h)
    | run v =>
      exact iff_of_bit_set (by rw [show (Operation.apply C s (Operation.run v)) =
        (guided_stabilize_run C s v).statics from rfl, run_statics]; exact hs)
        (fun ⟨_, h⟩ => by cases h)
    | command c =>
      cases c with
      | set_target_attitude roll pitch =>
        exact iff_of_bit_set ((set_target_attitude_bit1 s roll pitch).trans hs)
          (fun ⟨_, h⟩ => by cases h)
      | unset_target_attitude =>
        exact iff_of_bit_set ((unset_target_attitude_bit1 s).trans hs)
          (fun ⟨_, h⟩ => by cases h)
      | set_target_yaw_rate yaw_rate =>
        exact ⟨fun _ => ⟨yaw_rate, rfl⟩, fun _ => set_target_yaw_rate_bit1 s yaw_rate⟩
      | unset_target_yaw_rate =>
        exact iff_of_bit_set (unset_target_yaw_rate_bit1 s) (fun ⟨_, h⟩ => by cases h)

/-- Witness for C12: a tick of the flying sample vehicle on the statics left by
`guided_stabilize_init`. -/
theorem only_set_command_hands_axis_to_external_witness :
    maskTest (guided_stabilize_init Statics.zero false).2.1.guided_stabilize_target_mask
        GUIDED_STABILIZE_TARGET_MASK_ATTITUDE_IGNORE = true
    ∧ (maskTest ((Operation.run flying).apply sampleCopter
          (guided_stabilize_init Statics.zero false).2.1).guided_stabilize_target_mask
          GUIDED_STABILIZE_TARGET_MASK_ATTITUDE_IGNORE = false
        ↔ ∃ roll pitch, Operation.run flying
            = Operation.command (Command.set_target_attitude roll pitch)) :=
  ⟨by decide,
   (only_set_command_hands_axis_to_external sampleCopter
      (guided_stabilize_init Statics.zero false).2.1 (Operation.run flying)).1 (by decide)⟩

/-- C16 (last write wins): for every statics and all arguments, setting the
attitude target twice leaves exactly the statics of the second call alone (so
the setter is idempotent for equal arguments), likewise for the yaw-rate
target, and each unset command applied twice equals applying it once. -/
theorem last_write_wins (s : Statics) (r1 p1 r2 p2 y1 y2 : F32) :
    guided_stabilize_set_target_attitude (guided_stabilize_set_target_attitude s r1 p1) r2 p2
      = guided_stabilize_set_target_attitude s r2 p2
    ∧ guided_stabilize_set_target_attitude (guided_stabilize_set_target_attitude s r1 p1) r1 p1
      = guided_stabilize_set_target_attitude s r1 p1
    ∧ guided_stabilize_set_target_yaw_rate (guided_stabilize_set_target_yaw_rate s y1) y2
      = guided_stabilize_set_target_yaw_rate s y2
    ∧ guided_stabilize_set_target_yaw_rate (guided_stabilize_set_target_yaw_rate s y1) y1
      = guided_stabilize_set_target_yaw_rate s y1
    ∧ guided_stabilize_unset_target_attitude (guided_stabilize_unset_target_attitude s)
      = guided_stabilize_unset_target_attitude s
    ∧ guided_stabilize_unset_target_yaw_rate (guided_stabilize_unset_target_yaw_rate s)
      = guided_stabilize_unset_target_yaw_rate s := by
  refine ⟨?_, ?_, ?_, ?_, ?_, ?_⟩
  · simp only [guided_stabilize_set_target_attitude, clear_attitude_twice]
  · simp only [guided_stabilize_set_target_attitude, clear_attitude_twice]
  · simp only [guided_stabilize_set_target_yaw_rate, clear_yaw_rate_twice]
  · simp only [guided_stabilize_set_target_yaw_rate, clear_yaw_rate_twice]
  · simp only [guided_stabilize_unset_target_attitude, set_attitude_twice]
  · simp only [guided_stabilize_unset_target_yaw_rate, set_yaw_rate_twice]

/-- C17: from the statics left by `guided_stabilize_init`, and from any statics
whatever (so from each of the four source combinations), every combination of
the attitude test and the yaw-rate test (pilot branch or external branch for
each) is reached by a finite sequence of set/unset commands. -/
theorem every_source_combination_reachable (s : Statics) (ignore_checks : Bool)
    (attitude_pilot yaw_rate_pilot : Bool) :
    (∃ cmds : List Command,
        maskTest (applyCommands (guided_stabilize_init s ignore_checks).2.1
            cmds).guided_stabilize_target_mask
          GUIDED_STABILIZE_TARGET_MASK_ATTITUDE_IGNORE = attitude_pilot
        ∧ maskTest (applyCommands (guided_stabilize_init s ignore_checks).2.1
            cmds).guided_stabilize_target_mask
          GUIDED_STABILIZE_TARGET_MASK_YAW_RATE_IGNORE = yaw_rate_pilot)
    ∧ (∃ cmds : List Command,
        maskTest (applyCommands s cmds).guided_stabilize_target_mask
          GUIDED_STABILIZE_TARGET_MASK_ATTITUDE_IGNORE = attitude_pilot
        ∧ maskTest (applyCommands s cmds).guided_stabilize_target_mask
          GUIDED_STABILIZE_TARGET_MASK_YAW_RATE_IGNORE = yaw_rate_pilot) := by
  have key : ∀ t : Statics, ∃ cmds : List Command,
      maskTest (applyCommands t cmds).guided_stabilize_target_mask
        GUIDED_STABILIZE_TARGET_MASK_ATTITUDE_IGNORE = attitude_pilot
      ∧ maskTest (applyCommands t cmds).guided_stabilize_target_mask
        GUIDED_STABILIZE_TARGET_MASK_YAW_RATE_IGNORE = yaw_rate_pilot := by
    intro t
    simp only [maskTest_attitude, maskTest_yaw_rate]
    cases attitude_pilot <;> cases yaw_rate_pilot
    · refine ⟨[Command.set_target_attitude f32_0 f32_0, Command.set_target_yaw_rate f32_0],
        ?_, ?_⟩
      · show (guided_stabilize_set_target_yaw_rate
          (guided_stabilize_set_target_attitude t f32_0 f32_0)
          f32_0).guided_stabilize_target_mask.testBit 0 = false
        rw [set_target_yaw_rate_bit0, set_target_attitude_bit0]
      · exact set_target_yaw_rate_bit1 _ _
    · refine ⟨[Command.set_target_attitude f32_0 f32_0, Command.unset_target_yaw_rate],
        ?_, ?_⟩
      · show (guided_stabilize_unset_target_yaw_rate
          (guided_stabilize_set_target_attitude t f32_0
            f32_0)).guided_stabilize_target_mask.testBit 0 = false
        rw [unset_target_yaw_rate_bit0, set_target_attitude_bit0]
      · exact unset_target_yaw_rate_bit1 _
    · refine ⟨[Command.unset_target_attitude, Command.set_target_yaw_rate f32_0], ?_, ?_⟩
      · show (guided_stabilize_set_target_yaw_rate
          (guided_stabilize_unset_target_attitude t)
          f32_0).guided_stabilize_target_mask.testBit 0 = true
        rw [set_target_yaw_rate_bit0, unset_target_attitude_bit0]
      · exact set_target_yaw_rate_bit1 _ _
    · refine ⟨[Command.unset_target_attitude, Command.unset_target_yaw_rate], ?_, ?_⟩
      · show (guided_stabilize_unset_target_yaw_rate
          (guided_stabilize_unset_target_attitude t)).guided_stabilize_target_mask.testBit 0
          = true
        rw [unset_target_yaw_rate_bit0, unset_target_attitude_bit0]
      · exact unset_target_yaw_rate_bit1 _
  exact ⟨key _, key s⟩

/-- C18: a tick makes a slow-start call (and then it is `slow_start(true)`) if and
only if the gate is taken and the vehicle is landed, that is iff (not armed or
throttle zero) and `land_complete`; so never on a gate-open tick, whatever
`land_complete`, and never on a gated tick with `land_complete` false. -/
theorem slow_start_iff_gated_and_landed {V : Type} (C : Copter V) (s : Statics) (v : V) :
    ((∃ flag, Call.slow_start flag ∈ (guided_stabilize_run C s v).calls)
      ↔ ((C.motors_armed v = false ∨ C.ap_throttle_zero v = true)
          ∧ C.ap_land_complete v = true))
    ∧ (Call.slow_start true ∈ (guided_stabilize_run C s v).calls
      ↔ ((C.motors_armed v = false ∨ C.ap_throttle_zero v = true)
          ∧ C.ap_land_complete v = true)) := by
  by_cases hgate : C.motors_armed v = false ∨ C.ap_throttle_zero v = true
  · rw [run_gated C s v hgate]
    cases hl : C.ap_land_complete v <;> simp [hgate]
  · have harmed : C.motors_armed v = true := by
      cases h : C.motors_armed v
      · exact absurd (Or.inl h) hgate
      · rfl
    have hthr : C.ap_throttle_zero v = false := by
      cases h : C.ap_throttle_zero v
      · rfl
      · exact absurd (Or.inr h) hgate
    rw [run_open_calls C s v harmed hthr]
    by_cases ha : maskTest s.guided_stabilize_target_mask
        GUIDED_STABILIZE_TARGET_MASK_ATTITUDE_IGNORE = true <;>
    by_cases hy : maskTest s.guided_stabilize_target_mask
        GUIDED_STABILIZE_TARGET_MASK_YAW_RATE_IGNORE = true <;>
    simp [ha, hy, harmed, hthr]

/-- C19: the zero-initialised statics (mask `0`, roll, pitch and yaw rate `+0.0`)
have both IGNORE bits clear; a gate-open tick on them passes the stored targets
`(+0.0, +0.0, +0.0)` to the attitude controller and makes neither the pilot
lean-angle query nor the pilot yaw-rate query; the pilot branches are taken
after `guided_stabilize_init`, or after the unset command of the axis. -/
theorem zero_initialised_statics_are_external {V : Type} (C : Copter V) (v : V)
    (ignore_checks : Bool)
    (harmed : C.motors_armed v = true) (hthr : C.ap_throttle_zero v = false) :
    (maskTest Statics.zero.guided_stabilize_target_mask
        GUIDED_STABILIZE_TARGET_MASK_ATTITUDE_IGNORE = false
      ∧ maskTest Statics.zero.guided_stabilize_target_mask
        GUIDED_STABILIZE_TARGET_MASK_YAW_RATE_IGNORE = false)
    ∧ (guided_stabilize_run C Statics.zero v).calls =
        [Call.motors_armed, Call.update_simple_mode,
         Call.get_pilot_desired_throttle
           (C.channel_throttle_control_in (C.update_simple_mode v)),
         Call.get_smoothing_gain,
         Call.angle_ef_roll_pitch_rate_ef_yaw_smooth (F32.finite false 0 (-149))
           (F32.finite false 0 (-149)) (F32.finite false 0 (-149))
           (C.get_smoothing_gain (C.update_simple_mode v)),
         Call.set_throttle_out
           (C.get_pilot_desired_throttle (C.update_simple_mode v)
             (C.channel_throttle_control_in (C.update_simple_mode v)))
           true (C.g_throttle_filt (C.update_simple_mode v))]
    ∧ (∀ roll_in pitch_in, Call.get_pilot_desired_lean_angles roll_in pitch_in
        ∉ (guided_stabilize_run C Statics.zero v).calls)
    ∧ (∀ stick_angle, Call.get_pilot_desired_yaw_rate stick_angle
        ∉ (guided_stabilize_run C Statics.zero v).calls)
    ∧ (maskTest (guided_stabilize_init Statics.zero
          ignore_checks).2.1.guided_stabilize_target_mask
        GUIDED_STABILIZE_TARGET_MASK_ATTITUDE_IGNORE = true
      ∧ maskTest (guided_stabilize_init Statics.zero
          ignore_checks).2.1.guided_stabilize_target_mask
        GUIDED_STABILIZE_TARGET_MASK_YAW_RATE_IGNORE = true)
    ∧ (maskTest (guided_stabilize_unset_target_attitude
          Statics.zero).guided_stabilize_target_mask
        GUIDED_STABILIZE_TARGET_MASK_ATTITUDE_IGNORE = true
      ∧ maskTest (guided_stabilize_unset_target_yaw_rate
          Statics.zero).guided_stabilize_target_mask
        GUIDED_STABILIZE_TARGET_MASK_YAW_RATE_IGNORE = true) := by
  have ha : maskTest Statics.zero.guided_stabilize_target_mask
      GUIDED_STABILIZE_TARGET_MASK_ATTITUDE_IGNORE = false := by decide
  have hy : maskTest Statics.zero.guided_stabilize_target_mask
      GUIDED_STABILIZE_TARGET_MASK_YAW_RATE_IGNORE = false := by decide
  have hcalls := run_open_calls C Statics.zero v harmed hthr
  rw [ha, hy] at hcalls
  refine ⟨⟨ha, hy⟩, hcalls, ?_, ?_, ⟨?_, ?_⟩, ⟨?_, ?_⟩⟩
  · intro roll_in pitch_in
    rw [hcalls]
    simp
  · intro stick_angle
    rw [hcalls]
    simp
  · rw [init_mask]; decide
  · rw [init_mask]; decide
  · rw [maskTest_attitude]; exact unset_target_attitude_bit0 _
  · rw [maskTest_yaw_rate]; exact unset_target_yaw_rate_bit1 _

/-- Witness for C19: the flying sample vehicle on the zero-initialised statics. -/
theorem zero_initialised_statics_are_external_witness :
    (sampleCopter.motors_armed flying = true ∧ sampleCopter.ap_throttle_zero flying = false)
    ∧ (guided_stabilize_run sampleCopter Statics.zero flying).calls =
        [Call.motors_armed, Call.update_simple_mode,
         Call.get_pilot_desired_throttle
           (sampleCopter.channel_throttle_control_in (sampleCopter.update_simple_mode flying)),
         Call.get_smoothing_gain,
         Call.angle_ef_roll_pitch_rate_ef_yaw_smooth (F32.finite false 0 (-149))
           (F32.finite false 0 (-149)) (F32.finite false 0 (-149))
           (sampleCopter.get_smoothing_gain (sampleCopter.update_simple_mode flying)),
         Call.set_throttle_out
           (sampleCopter.get_pilot_desired_throttle (sampleCopter.update_simple_mode flying)
             (sampleCopter.channel_throttle_control_in (sampleCopter.update_simple_mode flying)))
           true (sampleCopter.g_throttle_filt (sampleCopter.update_simple_mode flying))] :=
  ⟨⟨rfl, rfl⟩,
   (zero_initialised_statics_are_external sampleCopter flying false rfl rfl).2.1⟩

/-- C14: the bitmask implementation refines the two-switch model of the
specification under `abstraction` (a source is `Pilot` iff its IGNORE bit is
set): `guided_stabilize_init`, the four set/unset commands and
`guided_stabilize_run` each commute with the corresponding operation of the
model, for every mask value; and on a 16-bit mask value `mask &= ~BIT`
(promoted to `int`, truncated back to 16 bits) changes bit 0, respectively
bit 1, to clear and no other bit, `mask |= BIT` changes it to set and no other
bit, and the results are again 16-bit values. -/
theorem bitmask_refines_two_switches {V : Type} (C : Copter V) (s : Statics) (v : V)
    (ignore_checks : Bool) (roll pitch yaw_rate : F32) :
    ((guided_stabilize_init s ignore_checks).1 = (Spec.init (abstraction s) ignore_checks).1
      ∧ abstraction (guided_stabilize_init s ignore_checks).2.1
          = (Spec.init (abstraction s) ignore_checks).2.1
      ∧ (guided_stabilize_init s ignore_checks).2.2
          = (Spec.init (abstraction s) ignore_checks).2.2)
    ∧ abstraction (guided_stabilize_set_target_attitude s roll pitch)
        = Spec.setTargetAttitude (abstraction s) roll pitch
    ∧ abstraction (guided_stabilize_unset_target_attitude s)
        = Spec.unsetTargetAttitude (abstraction s)
    ∧ abstraction (guided_stabilize_set_target_yaw_rate s yaw_rate)
        = Spec.setTargetYawRate (abstraction s) yaw_rate
    ∧ abstraction (guided_stabilize_unset_target_yaw_rate s)
        = Spec.unsetTargetYawRate (abstraction s)
    ∧ (abstraction (guided_stabilize_run C s v).statics = (Spec.run C (abstraction s) v).1
      ∧ (guided_stabilize_run C s v).vehicle = (Spec.run C (abstraction s) v).2.1
      ∧ (guided_stabilize_run C s v).calls = (Spec.run C (abstraction s) v).2.2)
    ∧ (s.guided_stabilize_target_mask < 65536 → ∀ i : Nat,
        (guided_stabilize_set_target_attitude s roll pitch).guided_stabilize_target_mask.testBit i
          = (s.guided_stabilize_target_mask.testBit i && !decide (i = 0))
        ∧ (guided_stabilize_unset_target_attitude s).guided_stabilize_target_mask.testBit i
          = (s.guided_stabilize_target_mask.testBit i || decide (i = 0))
        ∧ (guided_stabilize_set_target_yaw_rate s yaw_rate).guided_stabilize_target_mask.testBit i
          = (s.guided_stabilize_target_mask.testBit i && !decide (i = 1))
        ∧ (guided_stabilize_unset_target_yaw_rate s).guided_stabilize_target_mask.testBit i
          = (s.guided_stabilize_target_mask.testBit i || decide (i = 1)))
    ∧ ((guided_stabilize_set_target_attitude s roll pitch).guided_stabilize_target_mask < 65536
      ∧ (guided_stabilize_unset_target_attitude s).guided_stabilize_target_mask < 65536
      ∧ (guided_stabilize_set_target_yaw_rate s yaw_rate).guided_stabilize_target_mask < 65536
      ∧ (guided_stabilize_unset_target_yaw_rate s).guided_stabilize_target_mask < 65536) := by
  refine ⟨⟨rfl, ?_, rfl⟩, abstraction_set_target_attitude s roll pitch,
    abstraction_unset_target_attitude s, abstraction_set_target_yaw_rate s yaw_rate,
    abstraction_unset_target_yaw_rate s, abstraction_run C s v, ?_,
    ⟨?_, ?_, ?_, ?_⟩⟩
  · have h0 : Nat.testBit 3 0 = true := by decide
    have h1 : Nat.testBit 3 1 = true := by decide
    simp only [abstraction, init_mask]
    rw [if_pos h0, if_pos h1]
    rfl
  · intro hm i
    exact ⟨clear_attitude_exact _ i hm, set_attitude_exact _ i hm,
      clear_yaw_rate_exact _ i hm, set_yaw_rate_exact _ i hm⟩
  · dsimp only [guided_stabilize_set_target_attitude]
    exact toUint16_lt _
  · dsimp only [guided_stabilize_unset_target_attitude]
    exact toUint16_lt _
  · dsimp only [guided_stabilize_set_target_yaw_rate]
    exact toUint16_lt _
  · dsimp only [guided_stabilize_unset_target_yaw_rate]
    exact toUint16_lt _

/-- Witness for C14: the mask `3` left by `guided_stabilize_init` is a 16-bit
value, and the four commands change one bit of it. -/
theorem bitmask_refines_two_switches_witness :
    (guided_stabilize_init Statics.zero false).2.1.guided_stabilize_target_mask < 65536
    ∧ ∀ i : Nat,
        (guided_stabilize_set_target_attitude (guided_stabilize_init Statics.zero false).2.1
            f32_0_1 f32_0).guided_stabilize_target_mask.testBit i
          = ((guided_stabilize_init Statics.zero false).2.1.guided_stabilize_target_mask.testBit i
              && !decide (i = 0))
        ∧ (guided_stabilize_unset_target_attitude
            (guided_stabilize_init Statics.zero false).2.1).guided_stabilize_target_mask.testBit i
          = ((guided_stabilize_init Statics.zero false).2.1.guided_stabilize_target_mask.testBit i
              || decide (i = 0))
        ∧ (guided_stabilize_set_target_yaw_rate (guided_stabilize_init Statics.zero false).2.1
            f32_0_1).guided_stabilize_target_mask.testBit i
          = ((guided_stabilize_init Statics.zero false).2.1.guided_stabilize_target_mask.testBit i
              && !decide (i = 1))
        ∧ (guided_stabilize_unset_target_yaw_rate
            (guided_stabilize_init Statics.zero false).2.1).guided_stabilize_target_mask.testBit i
          = ((guided_stabilize_init Statics.zero false).2.1.guided_stabilize_target_mask.testBit i
              || decide (i = 1)) :=
  ⟨by decide,
   (bitmask_refines_two_switches sampleCopter (guided_stabilize_init Statics.zero false).2.1
      flying false f32_0_1 f32_0 f32_0_1).2.2.2.2.2.2.1 (by decide)⟩

/-- C15: on every gate-open tick (armed, throttle not zero) the steps of the
tick are, in this order and no others: the simple-mode transform, the pilot
lean-angle query only if the attitude test takes the pilot branch, the pilot
yaw-rate query only if the yaw-rate test takes the pilot branch, the pilot
throttle query, one attitude-controller call with (target roll, target pitch,
target yaw rate, smoothing gain), one `set_throttle_out` call; the sticks are
read from the vehicle as the simple-mode transform left it; there is no
unstabilized-throttle call and no slow-start call.  The second conjunct gives
all calls of the tick, with the armed query of the gate in front and the
evaluation of the smoothing-gain argument before the attitude-controller call. -/
theorem gate_open_tick_sequence {V : Type} (C : Copter V) (s : Statics) (v : V)
    (harmed : C.motors_armed v = true) (hthr : C.ap_throttle_zero v = false) :
    tickSteps (guided_stabilize_run C s v).calls =
      [Call.update_simple_mode]
      ++ (if maskTest s.guided_stabilize_target_mask
            GUIDED_STABILIZE_TARGET_MASK_ATTITUDE_IGNORE then
          [Call.get_pilot_desired_lean_angles (C.g_rc_1_control_in (C.update_simple_mode v))
            (C.g_rc_2_control_in (C.update_simple_mode v))]
        else [])
      ++ (if maskTest s.guided_stabilize_target_mask
            GUIDED_STABILIZE_TARGET_MASK_YAW_RATE_IGNORE then
          [Call.get_pilot_desired_yaw_rate (C.g_rc_4_control_in (C.update_simple_mode v))]
        else [])
      ++ [Call.get_pilot_desired_throttle
            (C.channel_throttle_control_in (C.update_simple_mode v)),
          Call.angle_ef_roll_pitch_rate_ef_yaw_smooth
            (if maskTest s.guided_stabilize_target_mask
                GUIDED_STABILIZE_TARGET_MASK_ATTITUDE_IGNORE then
              C.get_pilot_desired_lean_angles (C.update_simple_mode v)
                (C.g_rc_1_control_in (C.update_simple_mode v))
                (C.g_rc_2_control_in (C.update_simple_mode v))
            else (s.guided_stabilize_target_roll, s.guided_stabilize_target_pitch)).1
            (if maskTest s.guided_stabilize_target_mask
                GUIDED_STABILIZE_TARGET_MASK_ATTITUDE_IGNORE then
              C.get_pilot_desired_lean_angles (C.update_simple_mode v)
                (C.g_rc_1_control_in (C.update_simple_mode v))
                (C.g_rc_2_control_in (C.update_simple_mode v))
            else (s.guided_stabilize_target_roll, s.guided_stabilize_target_pitch)).2
            (if maskTest s.guided_stabilize_target_mask
                GUIDED_STABILIZE_TARGET_MASK_YAW_RATE_IGNORE then
              C.get_pilot_desired_yaw_rate (C.update_simple_mode v)
                (C.g_rc_4_control_in (C.update_simple_mode v))
            else s.guided_stabilize_target_yaw_rate)
            (C.get_smoothing_gain (C.update_simple_mode v)),
          Call.set_throttle_out
            (C.get_pilot_desired_throttle (C.update_simple_mode v)
              (C.channel_throttle_control_in (C.update_simple_mode v)))
            true (C.g_throttle_filt (C.update_simple_mode v))]
    ∧ (guided_stabilize_run C s v).calls =
      [Call.motors_armed, Call.update_simple_mode]
      ++ (if maskTest s.guided_stabilize_target_mask
            GUIDED_STABILIZE_TARGET_MASK_ATTITUDE_IGNORE then
          [Call.get_pilot_desired_lean_angles (C.g_rc_1_control_in (C.update_simple_mode v))
            (C.g_rc_2_control_in (C.update_simple_mode v))]
        else [])
      ++ (if maskTest s.guided_stabilize_target_mask
            GUIDED_STABILIZE_TARGET_MASK_YAW_RATE_IGNORE then
          [Call.get_pilot_desired_yaw_rate (C.g_rc_4_control_in (C.update_simple_mode v))]
        else [])
      ++ [Call.get_pilot_desired_throttle
            (C.channel_throttle_control_in (C.update_simple_mode v)),
          Call.get_smoothing_gain,
          Call.angle_ef_roll_pitch_rate_ef_yaw_smooth
            (if maskTest s.guided_stabilize_target_mask
                GUIDED_STABILIZE_TARGET_MASK_ATTITUDE_IGNORE then
              C.get_pilot_desired_lean_angles (C.update_simple_mode v)
                (C.g_rc_1_control_in (C.update_simple_mode v))
                (C.g_rc_2_control_in (C.update_simple_mode v))
            else (s.guided_stabilize_target_roll, s.guided_stabilize_target_pitch)).1
            (if maskTest s.guided_stabilize_target_mask
                GUIDED_STABILIZE_TARGET_MASK_ATTITUDE_IGNORE then
              C.get_pilot_desired_lean_angles (C.update_simple_mode v)
                (C.g_rc_1_control_in (C.update_simple_mode v))
                (C.g_rc_2_control_in (C.update_simple_mode v))
            else (s.guided_stabilize_target_roll, s.guided_stabilize_target_pitch)).2
            (if maskTest s.guided_stabilize_target_mask
                GUIDED_STABILIZE_TARGET_MASK_YAW_RATE_IGNORE then
              C.get_pilot_desired_yaw_rate (C.update_simple_mode v)
                (C.g_rc_4_control_in (C.update_simple_mode v))
            else s.guided_stabilize_target_yaw_rate)
            (C.get_smoothing_gain (C.update_simple_mode v)),
          Call.set_throttle_out
            (C.get_pilot_desired_throttle (C.update_simple_mode v)
              (C.channel_throttle_control_in (C.update_simple_mode v)))
            true (C.g_throttle_filt (C.update_simple_mode v))]
    ∧ (attitudeCalls (guided_stabilize_run C s v).calls).length = 1
    ∧ (throttleOutCalls (guided_stabilize_run C s v).calls).length = 1
    ∧ (∀ throttle_in reset filt,
        Call.set_throttle_out_unstabilized throttle_in reset filt
          ∉ (guided_stabilize_run C s v).calls)
    ∧ (∀ flag, Call.slow_start flag ∉ (guided_stabilize_run C s v).calls) := by
  refine ⟨?_, run_open_calls C s v harmed hthr, ?_, ?_, ?_, ?_⟩
  · rw [run_open_calls C s v harmed hthr]
    by_cases ha : maskTest s.guided_stabilize_target_mask
        GUIDED_STABILIZE_TARGET_MASK_ATTITUDE_IGNORE = true <;>
    by_cases hy : maskTest s.guided_stabilize_target_mask
        GUIDED_STABILIZE_TARGET_MASK_YAW_RATE_IGNORE = true <;>
    simp [ha, hy, tickSteps, Call.isStep, List.filter]
  · rw [run_open_attitudeCalls C s v harmed hthr]
    rfl
  · rw [run_open_throttleOutCalls C s v harmed hthr]
    rfl
  · intro throttle_in reset filt
    rw [run_open_calls C s v harmed hthr]
    by_cases ha : maskTest s.guided_stabilize_target_mask
        GUIDED_STABILIZE_TARGET_MASK_ATTITUDE_IGNORE = true <;>
    by_cases hy : maskTest s.guided_stabilize_target_mask
        GUIDED_STABILIZE_TARGET_MASK_YAW_RATE_IGNORE = true <;>
    simp [ha, hy]
  · intro flag
    rw [run_open_calls C s v harmed hthr]
    by_cases ha : maskTest s.guided_stabilize_target_mask
        GUIDED_STABILIZE_TARGET_MASK_ATTITUDE_IGNORE = true <;>
    by_cases hy : maskTest s.guided_stabilize_target_mask
        GUIDED_STABILIZE_TARGET_MASK_YAW_RATE_IGNORE = true <;>
    simp [ha, hy]

/-- Witness for C15: the flying sample vehicle after `guided_stabilize_init`, with
roll stick 100, pitch stick -50, yaw stick 30 and throttle stick 500. -/
theorem gate_open_tick_sequence_witness :
    (sampleCopter.motors_armed flying = true ∧ sampleCopter.ap_throttle_zero flying = false)
    ∧ tickSteps (guided_stabilize_run sampleCopter
        (guided_stabilize_init Statics.zero false).2.1 flying).calls
      = [Call.update_simple_mode,
         Call.get_pilot_desired_lean_angles 100 (-50),
         Call.get_pilot_desired_yaw_rate 30,
         Call.get_pilot_desired_throttle 500,
         Call.angle_ef_roll_pitch_rate_ef_yaw_smooth (F32.ofInt 100) (F32.ofInt (-50))
           (F32.ofInt 30) (F32.ofInt 12),
         Call.set_throttle_out 500 true (F32.ofInt 0)] :=
  ⟨⟨rfl, rfl⟩,
   ((gate_open_tick_sequence sampleCopter (guided_stabilize_init Statics.zero false).2.1
      flying rfl rfl).1.trans (by decide))⟩

/-- C13 as stated fails, with each assignment taken as one step and a tick
running between two assignments of the setter.  The attitude source is already
External with stored roll and pitch `9387340 * 2^-14` (set from `(0.1, 0.1)`),
and `guided_stabilize_set_target_attitude(0, 0)` is under way: after its first
assignment (line 102) the three assignments have not all run, the attitude bit
says External, and a gate-open tick passes the new roll `+0.0` with the old
pitch, a pair that is neither the old target nor the new one. -/
theorem retargeting_tick_observes_mixed_pair :
    set_target_attitude_after 3
        (guided_stabilize_set_target_attitude Statics.zero f32_0_1 f32_0_1) f32_0 f32_0
      = guided_stabilize_set_target_attitude
        (guided_stabilize_set_target_attitude Statics.zero f32_0_1 f32_0_1) f32_0 f32_0
    ∧ maskTest (set_target_attitude_after 1
        (guided_stabilize_set_target_attitude Statics.zero f32_0_1 f32_0_1)
        f32_0 f32_0).guided_stabilize_target_mask
        GUIDED_STABILIZE_TARGET_MASK_ATTITUDE_IGNORE = false
    ∧ (attitudeCalls (guided_stabilize_run sampleCopter
        (set_target_attitude_after 1
          (guided_stabilize_set_target_attitude Statics.zero f32_0_1 f32_0_1) f32_0 f32_0)
        flying).calls).map (fun a => (a.1, a.2.1))
      = [(F32.finite false 0 (-149), F32.finite false 9387340 (-14))]
    ∧ ((guided_stabilize_set_target_attitude Statics.zero f32_0_1
          f32_0_1).guided_stabilize_target_roll,
        (guided_stabilize_set_target_attitude Statics.zero f32_0_1
          f32_0_1).guided_stabilize_target_pitch)
      = (F32.finite false 9387340 (-14), F32.finite false 9387340 (-14))
    ∧ ((guided_stabilize_set_target_attitude
          (guided_stabilize_set_target_attitude Statics.zero f32_0_1 f32_0_1)
          f32_0 f32_0).guided_stabilize_target_roll,
        (guided_stabilize_set_target_attitude
          (guided_stabilize_set_target_attitude Statics.zero f32_0_1 f32_0_1)
          f32_0 f32_0).guided_stabilize_target_pitch)
      = (F32.finite false 0 (-149), F32.finite false 0 (-149))
    ∧ (F32.finite false 0 (-149), F32.finite false 9387340 (-14))
      ≠ (F32.finite false 9387340 (-14), F32.finite false 9387340 (-14))
    ∧ (F32.finite false 0 (-149), F32.finite false 9387340 (-14))
      ≠ (F32.finite false 0 (-149), F32.finite false 0 (-149)) := by
  have hext : maskTest (set_target_attitude_after 1
      (guided_stabilize_set_target_attitude Statics.zero f32_0_1 f32_0_1)
      f32_0 f32_0).guided_stabilize_target_mask
      GUIDED_STABILIZE_TARGET_MASK_ATTITUDE_IGNORE = false := by
    rw [set_target_attitude_after_mask 1 (by decide), maskTest_attitude,
      set_target_attitude_bit0]
  refine ⟨rfl, hext, ?_, by decide, by decide, by decide, by decide⟩
  rw [run_open_roll_pitch_external sampleCopter _ flying rfl rfl hext]
  decide

/-- C13 as amended, with each assignment of a setter taken as one step, in source
order, and a gate-open tick running after the first `k` of them.  The three
assignments of `guided_stabilize_set_target_attitude`, and the two of
`guided_stabilize_set_target_yaw_rate`, make up the setter.  When the attitude
test takes the pilot branch before the call, the tick passes the pilot lean
angles until the mask assignment has run and the complete new roll and pitch
afterwards; from any statics, a tick that finds the attitude bit External once
both values are written passes the complete new pair.  When the yaw-rate test
takes the pilot branch before the call, the tick passes the pilot yaw rate
until the mask assignment has run and the new yaw rate afterwards; from any
statics, a tick that finds the yaw-rate bit External once the call has begun
passes the new yaw rate. -/
theorem publish_then_flip_at_statement_granularity {V : Type} (C : Copter V)
    (s : Statics) (v : V) (roll pitch yaw_rate : F32) (k : Nat)
    (harmed : C.motors_armed v = true) (hthr : C.ap_throttle_zero v = false) :
    (set_target_attitude_after 3 s roll pitch
        = guided_stabilize_set_target_attitude s roll pitch
      ∧ set_target_yaw_rate_after 2 s yaw_rate
        = guided_stabilize_set_target_yaw_rate s yaw_rate)
    ∧ (maskTest s.guided_stabilize_target_mask
          GUIDED_STABILIZE_TARGET_MASK_ATTITUDE_IGNORE = true →
        (k < 3 →
          (attitudeCalls (guided_stabilize_run C
              (set_target_attitude_after k s roll pitch) v).calls).map
              (fun a => (a.1, a.2.1))
            = [C.get_pilot_desired_lean_angles (C.update_simple_mode v)
                (C.g_rc_1_control_in (C.update_simple_mode v))
                (C.g_rc_2_control_in (C.update_simple_mode v))])
        ∧ (3 ≤ k →
          (attitudeCalls (guided_stabilize_run C
              (set_target_attitude_after k s roll pitch) v).calls).map
              (fun a => (a.1, a.2.1))
            = [(F32.mul (F32.div (F32.ofInt 18000) M_PI_F) roll,
                F32.mul (F32.div (F32.ofInt 18000) M_PI_F) pitch)]))
    ∧ (2 ≤ k →
        maskTest (set_target_attitude_after k s roll pitch).guided_stabilize_target_mask
          GUIDED_STABILIZE_TARGET_MASK_ATTITUDE_IGNORE = false →
        (attitudeCalls (guided_stabilize_run C
            (set_target_attitude_after k s roll pitch) v).calls).map
            (fun a => (a.1, a.2.1))
          = [(F32.mul (F32.div (F32.ofInt 18000) M_PI_F) roll,
              F32.mul (F32.div (F32.ofInt 18000) M_PI_F) pitch)])
    ∧ (maskTest s.guided_stabilize_target_mask
          GUIDED_STABILIZE_TARGET_MASK_YAW_RATE_IGNORE = true →
        (k < 2 →
          (attitudeCalls (guided_stabilize_run C
              (set_target_yaw_rate_after k s yaw_rate) v).calls).map (fun a => a.2.2.1)
            = [C.get_pilot_desired_yaw_rate (C.update_simple_mode v)
                (C.g_rc_4_control_in (C.update_simple_mode v))])
        ∧ (2 ≤ k →
          (attitudeCalls (guided_stabilize_run C
              (set_target_yaw_rate_after k s yaw_rate) v).calls).map (fun a => a.2.2.1)
            = [F32.mul (F32.div (F32.ofInt 18000) M_PI_F) yaw_rate]))
    ∧ (1 ≤ k →
        maskTest (set_target_yaw_rate_after k s yaw_rate).guided_stabilize_target_mask
          GUIDED_STABILIZE_TARGET_MASK_YAW_RATE_IGNORE = false →
        (attitudeCalls (guided_stabilize_run C
            (set_target_yaw_rate_after k s yaw_rate) v).calls).map (fun a => a.2.2.1)
          = [F32.mul (F32.div (F32.ofInt 18000) M_PI_F) yaw_rate]) := by
  refine ⟨⟨rfl, rfl⟩, ?_, ?_, ?_, ?_⟩
  · intro hpilot
    constructor
    · intro hk
      apply run_open_roll_pitch_pilot C _ v harmed hthr
      rw [set_target_attitude_after_mask k hk]
      exact hpilot
    · intro hk
      rw [set_target_attitude_after_all k hk]
      have hext : maskTest
          (guided_stabilize_set_target_attitude s roll pitch).guided_stabilize_target_mask
          GUIDED_STABILIZE_TARGET_MASK_ATTITUDE_IGNORE = false := by
        rw [maskTest_attitude, set_target_attitude_bit0]
      rw [run_open_roll_pitch_external C _ v harmed hthr hext]
      rfl
  · intro hk hext
    rw [run_open_roll_pitch_external C _ v harmed hthr hext,
      (set_target_attitude_after_values k hk s roll pitch).1,
      (set_target_attitude_after_values k hk s roll pitch).2]
  · intro hpilot
    constructor
    · intro hk
      apply run_open_yaw_rate_pilot C _ v harmed hthr
      rw [set_target_yaw_rate_after_mask k hk]
      exact hpilot
    · intro hk
      rw [set_target_yaw_rate_after_all k hk]
      have hext : maskTest
          (guided_stabilize_set_target_yaw_rate s yaw_rate).guided_stabilize_target_mask
          GUIDED_STABILIZE_TARGET_MASK_YAW_RATE_IGNORE = false := by
        rw [maskTest_yaw_rate, set_target_yaw_rate_bit1]
      rw [run_open_yaw_rate_external C _ v harmed hthr hext]
      rfl
  · intro hk hext
    rw [run_open_yaw_rate_external C _ v harmed hthr hext,
      set_target_yaw_rate_after_value k hk s yaw_rate]

/-- Witness for C13 as amended: the flying sample vehicle, with
`guided_stabilize_set_target_attitude(0.1, 0.1)` under way after its first
assignment, from the statics left by `guided_stabilize_init`. -/
theorem publish_then_flip_at_statement_granularity_witness :
    (sampleCopter.motors_armed flying = true ∧ sampleCopter.ap_throttle_zero flying = false
      ∧ maskTest (guided_stabilize_init Statics.zero false).2.1.guided_stabilize_target_mask
          GUIDED_STABILIZE_TARGET_MASK_ATTITUDE_IGNORE = true
      ∧ 1 < 3)
    ∧ (attitudeCalls (guided_stabilize_run sampleCopter
          (set_target_attitude_after 1 (guided_stabilize_init Statics.zero false).2.1
            f32_0_1 f32_0_1) flying).calls).map (fun a => (a.1, a.2.1))
        = [sampleCopter.get_pilot_desired_lean_angles (sampleCopter.update_simple_mode flying)
            (sampleCopter.g_rc_1_control_in (sampleCopter.update_simple_mode flying))
            (sampleCopter.g_rc_2_control_in (sampleCopter.update_simple_mode flying))] :=
  ⟨⟨rfl, rfl, by decide, by decide⟩,
   ((publish_then_flip_at_statement_granularity sampleCopter
      (guided_stabilize_init Statics.zero false).2.1 flying f32_0_1 f32_0_1 f32_0_1 1
      rfl rfl).2.1 (by decide)).1 (by decide)⟩

end GuidedStabilize
